import Mathlib

/-!
# Cart interaction controller (`static/js/base.js`)

A shallow embedding of the two click handlers of `base.js` and of `showNotification`.

The page is a finite sequence of elements in document order.  Every element carries the
attributes and inline style properties the script reads or writes.  The tree shape is kept as
the list of ancestors of each element (nearest first), which is what `closest` and the scoped
`querySelectorAll` calls need.

Modelling conventions:
* `innerHTML` is one string per element; `textContent = n` for a number `n` stores the text
  of `n` in it.  The markup inside a control is treated as opaque text.
* an inline style property that is unset (or was assigned `''` / removed) is `none`.
* a missing attribute read by `getAttribute` is `null`, which a template literal prints as
  `null`.
* what the browser does with a selector text and with a number is a parameter, `Browser`:
  `attrSelector m pid` is the meaning of the selector `[m="${pid}"]`, or `none` when parsing
  it throws; `numberText q` is the text of the number `q`.  Two facts about browsers are
  part of it: for a product id made of printable characters other than the double quote and
  the backslash the selector is the attribute test it looks like, and a safe integer prints
  in decimal.  An exception inside `.then` runs the `.catch` callback.
* a write to `innerHTML` or `textContent` replaces the subtree of its target.  The model
  keeps one string per element and does not follow elements nested inside an anchor, a
  quantity display or an add-button; `unnested` names the elements that are not nested in
  one of those, and statements about the content or the visibility of an element are made
  for such elements.
* the JSON body is an object with a boolean `success`, an integer `quantity` and a string
  `message`.
* `showNotification` is recorded as the list of its calls; the server message is plain text.
* the promise chain of a click is split at the request boundary: `click…` is the synchronous
  part of a handler, and `resolve…` runs the `.then` / `.catch` continuation on an `Outcome`.
-/

namespace InventoryManager

/-- Inline style properties touched by the script. -/
structure Style where
  display : Option String
  pointerEvents : Option String
  cursor : Option String
deriving DecidableEq

/-- One element of the page. -/
structure Element where
  tag : String
  ancestors : List Nat
  dataCartAction : Option String
  dataProductId : Option String
  href : Option String
  dataAddButton : Option String
  dataCartControls : Option String
  dataProductQuantity : Option String
  disabled : Bool
  innerHTML : String
  style : Style
deriving DecidableEq

/-- The elements of the document, by position in document order. -/
abbrev Dom := Nat → Element

/-- A call of `showNotification(message, type)`. -/
structure Notification where
  message : String
  type : String
deriving DecidableEq

/-- A call of `fetch(url, {method, headers})`. -/
structure Request where
  url : String
  method : String
  headers : List (String × String)
deriving DecidableEq

/-- The page: its elements plus the observable effects of the script. -/
structure Page where
  size : Nat
  dom : Dom
  pathname : String
  notifications : List Notification
  requests : List Request
  reloadTimers : List Nat
  consoleErrors : List String

/-- The JSON body `{success, quantity, message}`. -/
structure Data where
  success : Bool
  quantity : Int
  message : String
deriving DecidableEq

/-- How a request resolves: a parsed JSON body, or a rejection carrying the error text. -/
inductive Outcome where
  | json (data : Data)
  | failure (error : String)
deriving DecidableEq

/-- The markup of the loading indicator. -/
def loadingHTML : String := "<i class=\"bi bi-arrow-repeat spin\"></i>"

/-- The canonical label of the add-button. -/
def addToCartLabel : String := "Add to Cart"

/-- The text of the generic error toast. -/
def genericError : String := "An error occurred. Please try again."

/-- Substring test on character lists. -/
def includesChars : List Char → List Char → Bool
  | [], t => t.isEmpty
  | c :: cs, t => t.isPrefixOf (c :: cs) || includesChars cs t

/-- The method `String.prototype.includes`. -/
def includes (s t : String) : Bool := includesChars s.toList t.toList

/-- A template literal prints `null` for a missing attribute. -/
def attrText (a : Option String) : String := a.getD "null"

/-- Replace the element at position `i`. -/
def setEl (d : Dom) (i : Nat) (e : Element) : Dom := fun j => if j = i then e else d j

def Element.withPointerEvents (e : Element) (v : String) : Element :=
  { e with style := { e.style with pointerEvents := some v } }

def Element.withCursor (e : Element) (v : String) : Element :=
  { e with style := { e.style with cursor := some v } }

/-- Assigning `''` to `style.display` (or `removeProperty`) clears it. -/
def Element.withDisplay (e : Element) (v : Option String) : Element :=
  { e with style := { e.style with display := v } }

def Element.withInnerHTML (e : Element) (h : String) : Element :=
  { e with innerHTML := h }

def Element.withoutDisabled (e : Element) : Element :=
  { e with disabled := false }

/-- The call `document.querySelectorAll(sel)`: matching positions in document order. -/
def querySelectorAll (size : Nat) (d : Dom) (sel : Element → Bool) : List Nat :=
  (List.range size).filter (fun i => sel (d i))

/-- The call `document.querySelector(sel)`: the first match, if any. -/
def querySelector (size : Nat) (d : Dom) (sel : Element → Bool) : Option Nat :=
  (querySelectorAll size d sel).head?

/-- The call `root.querySelectorAll(sel)`: matching descendants of `root`. -/
def querySelectorAllIn (size : Nat) (d : Dom) (root : Nat) (sel : Element → Bool) : List Nat :=
  (List.range size).filter (fun i => decide (root ∈ (d i).ancestors) && sel (d i))

/-- The call `root.querySelector(sel)`. -/
def querySelectorIn (size : Nat) (d : Dom) (root : Nat) (sel : Element → Bool) : Option Nat :=
  (querySelectorAllIn size d root sel).head?

/-- The call `el.closest(sel)`: the element itself or its nearest matching ancestor. -/
def closest (d : Dom) (i : Nat) (sel : Element → Bool) : Option Nat :=
  (i :: (d i).ancestors).find? (fun j => sel (d j))

def isAnchor (e : Element) : Bool := e.tag == "a"

def hasCartControls (e : Element) : Bool := e.dataCartControls.isSome

def isQuantityOf (pid : String) (e : Element) : Bool := e.dataProductQuantity == some pid

def isControlsOf (pid : String) (e : Element) : Bool := e.dataCartControls == some pid

def isAddButtonOf (pid : String) (e : Element) : Bool := e.dataAddButton == some pid

/-- The function `showNotification(message, type)`. -/
def showNotification (p : Page) (message type : String) : Page :=
  { p with notifications := p.notifications ++ [{ message := message, type := type }] }

/-- The request both handlers issue. -/
def ajaxRequest (url : String) : Request :=
  { url := url, method := "GET", headers := [("X-Requested-With", "XMLHttpRequest")] }

/-- What the continuation of a quantity-change click closes over. -/
structure CartClick where
  self : Nat
  productId : String
  url : String
  group : Option Nat
  buttonOriginals : List (Nat × String)
  originalHTML : String

/-- One round of the snapshot loop: `buttonOriginals.set(btn, btn.innerHTML)` and
`btn.style.pointerEvents = 'none'`. -/
def snapshotStep (acc : Dom × List (Nat × String)) (btn : Nat) : Dom × List (Nat × String) :=
  (setEl acc.1 btn ((acc.1 btn).withPointerEvents "none"),
   acc.2 ++ [(btn, (acc.1 btn).innerHTML)])

/-- Lines 12-20: snapshot and disable every anchor of the group. -/
def snapshotGroup (size : Nat) (d : Dom) (group : Option Nat) : Dom × List (Nat × String) :=
  match group with
  | none => (d, [])
  | some g => (querySelectorAllIn size d g isAnchor).foldl snapshotStep (d, [])

/-- Lines 6-33: the synchronous part of the quantity-change handler on element `self`. -/
def clickCartAction (p : Page) (self : Nat) : Page × CartClick :=
  let productId := attrText (p.dom self).dataProductId
  let url := attrText (p.dom self).href
  let group := closest p.dom self hasCartControls
  let snap := snapshotGroup p.size p.dom group
  let d1 := snap.1
  let originalHTML := (d1 self).innerHTML
  let d2 := setEl d1 self ((d1 self).withInnerHTML loadingHTML)
  let d3 := setEl d2 self ((d2 self).withPointerEvents "none")
  ({ p with dom := d3, requests := p.requests ++ [ajaxRequest url] },
   { self := self, productId := productId, url := url, group := group,
     buttonOriginals := snap.2, originalHTML := originalHTML })

/-- One round of the restore loop (lines 83-89, 106-112, 123-129). -/
def restoreStep (c : CartClick) (d : Dom) (btn : Nat) : Dom :=
  let d1 := setEl d btn ((d btn).withPointerEvents "auto")
  if btn ≠ c.self then
    match c.buttonOriginals.lookup btn with
    | some h => setEl d1 btn ((d1 btn).withInnerHTML h)
    | none => d1
  else d1

/-- Restore the clicked button, then the group (lines 78-90, 103-113, 120-130). -/
def restore (c : CartClick) (size : Nat) (d : Dom) : Dom :=
  let d1 := setEl d c.self ((d c.self).withInnerHTML c.originalHTML)
  let d2 := setEl d1 c.self ((d1 c.self).withPointerEvents "auto")
  match c.group with
  | none => d2
  | some g => (querySelectorAllIn size d2 g isAnchor).foldl (restoreStep c) d2

/-- The three markers the script builds selectors for. -/
inductive Marker where
  | quantity
  | controls
  | addButton
deriving DecidableEq

/-- The attribute test a selector `[marker="${pid}"]` is meant to be. -/
def Marker.matcher : Marker → String → Element → Bool
  | .quantity => isQuantityOf
  | .controls => isControlsOf
  | .addButton => isAddButtonOf

/-- A product id that a double-quoted selector string holds as it is: printable characters
other than the double quote and the backslash. -/
def plainId (pid : String) : Bool :=
  pid.toList.all (fun c => decide (32 ≤ c.toNat) && decide (c.toNat ≠ 127)
    && decide (c ≠ '"') && decide (c ≠ '\\'))

/-- The integers a JSON number holds exactly. -/
def isSafeInteger (q : Int) : Bool := decide (q.natAbs ≤ 9007199254740991)

/-- The browser, as far as the script depends on it. -/
structure Browser where
  attrSelector : Marker → String → Option (Element → Bool)
  attrSelector_plain : ∀ m pid, plainId pid = true →
    attrSelector m pid = some (m.matcher pid)
  numberText : Int → String
  numberText_safe : ∀ q, isSafeInteger q = true → numberText q = toString q

/-- The error a selector that does not parse throws. -/
def selectorError : String := "SyntaxError"

/-- The text stored by lines 40-44: the number when it is positive, `0` otherwise. -/
def quantityText (B : Browser) (q : Int) : String := if q > 0 then B.numberText q else "0"

/-- Lines 39-45: write `text` into every element the quantity selector `sq` matches. -/
def updateQuantities (size : Nat) (d : Dom) (sq : Element → Bool) (text : String) : Dom :=
  (querySelectorAll size d sq).foldl
    (fun acc i => setEl acc i ((acc i).withInnerHTML text)) d

/-- Lines 55-61: hide the control group and re-enable its anchors. -/
def hideControls (size : Nat) (d : Dom) (cartControls : Option Nat) : Dom :=
  match cartControls with
  | none => d
  | some cc =>
    let d1 := setEl d cc ((d cc).withDisplay (some "none"))
    (querySelectorAllIn size d1 cc isAnchor).foldl
      (fun acc b => setEl acc b ((acc b).withPointerEvents "auto")) d1

/-- Lines 62-73: reveal and reset the add-button. -/
def resetAddButton (d : Dom) (addButton : Option Nat) : Dom :=
  match addButton with
  | none => d
  | some ab =>
    let d1 := setEl d ab ((d ab).withDisplay none)
    let d2 := setEl d1 ab ((d1 ab).withPointerEvents "auto")
    let d3 := setEl d2 ab ((d2 ab).withCursor "pointer")
    let d4 := if !(includes (d3 ab).innerHTML addToCartLabel)
      then setEl d3 ab ((d3 ab).withInnerHTML addToCartLabel) else d3
    setEl d4 ab (d4 ab).withoutDisabled

/-- Lines 51-74: control visibility after a successful quantity change, for the control
group and the add-button found at lines 48-49. -/
def updateVisibility (size : Nat) (d : Dom) (sc sa : Element → Bool) (q : Int) : Dom :=
  let cartControls := querySelector size d sc
  let addButton := querySelector size d sa
  if q > 0 then
    let d1 := match cartControls with
      | some cc => setEl d cc ((d cc).withDisplay none)
      | none => d
    match addButton with
    | some ab => setEl d1 ab ((d1 ab).withDisplay (some "none"))
    | none => d1
  else
    resetAddButton (hideControls size d cartControls) addButton

/-- Lines 92-97: on a cart page, schedule a reload after 500 ms. -/
def scheduleReload (p : Page) : Page :=
  if includes p.pathname "/cart/" then { p with reloadTimers := p.reloadTimers ++ [500] } else p

/-- Lines 118-132: the `.catch` callback of the quantity-change handler. -/
def catchCartAction (p : Page) (c : CartClick) (error : String) : Page :=
  showNotification
    { p with dom := restore c p.size p.dom,
             consoleErrors := p.consoleErrors ++ [error] }
    genericError "danger"

/-- Lines 35-132: the continuation of a quantity-change click.  The selectors of lines 38,
48 and 49 are parsed in that order; one that throws hands over to `.catch`. -/
def resolveCartAction (B : Browser) (p : Page) (c : CartClick) : Outcome → Page
  | .json data =>
    if data.success then
      match B.attrSelector .quantity c.productId with
      | none => catchCartAction p c selectorError
      | some sq =>
        let d1 := updateQuantities p.size p.dom sq (quantityText B data.quantity)
        match B.attrSelector .controls c.productId with
        | none => catchCartAction { p with dom := d1 } c selectorError
        | some sc =>
          match B.attrSelector .addButton c.productId with
          | none => catchCartAction { p with dom := d1 } c selectorError
          | some sa =>
            let d2 := updateVisibility p.size d1 sc sa data.quantity
            let d3 := restore c p.size d2
            showNotification (scheduleReload { p with dom := d3 }) data.message "success"
    else
      showNotification { p with dom := restore c p.size p.dom } data.message "warning"
  | .failure error => catchCartAction p c error

/-- A whole quantity-change interaction: click, then the request resolves with `o`. -/
def cartActionHandler (B : Browser) (p : Page) (self : Nat) (o : Outcome) : Page :=
  resolveCartAction B (clickCartAction p self).1 (clickCartAction p self).2 o

/-- What the continuation of an add-to-cart click closes over. -/
structure AddClick where
  self : Nat
  productId : String
  url : String
  originalHTML : String

/-- Lines 140-156: the synchronous part of the add-to-cart handler on element `self`. -/
def clickAddButton (p : Page) (self : Nat) : Page × AddClick :=
  let productId := attrText (p.dom self).dataAddButton
  let url := attrText (p.dom self).href
  let originalHTML := (p.dom self).innerHTML
  let d1 := setEl p.dom self ((p.dom self).withInnerHTML loadingHTML)
  let d2 := setEl d1 self ((d1 self).withPointerEvents "none")
  ({ p with dom := d2, requests := p.requests ++ [ajaxRequest url] },
   { self := self, productId := productId, url := url, originalHTML := originalHTML })

/-- Lines 164-170: reveal the control group and write the quantity into the first display
inside it.  The result is `.error` with the document reached so far when the selector of
line 166 throws. -/
def revealControls (B : Browser) (size : Nat) (d : Dom) (cartControls : Option Nat)
    (pid : String) (q : Int) : Except Dom Dom :=
  match cartControls with
  | none => .ok d
  | some cc =>
    let e1 := setEl d cc ((d cc).withDisplay none)
    match B.attrSelector .quantity pid with
    | none => .error e1
    | some sq =>
      match querySelectorIn size e1 cc sq with
      | some qe => .ok (setEl e1 qe ((e1 qe).withInnerHTML (B.numberText q)))
      | none => .ok e1

/-- Lines 175-176 and 182-183: put the clicked add-button back. -/
def restoreAdd (c : AddClick) (d : Dom) : Dom :=
  let d1 := setEl d c.self ((d c.self).withInnerHTML c.originalHTML)
  setEl d1 c.self ((d1 c.self).withPointerEvents "auto")

/-- Lines 180-185: the `.catch` callback of the add-to-cart handler. -/
def catchAddButton (p : Page) (c : AddClick) (error : String) : Page :=
  showNotification
    { p with dom := restoreAdd c p.dom, consoleErrors := p.consoleErrors ++ [error] }
    genericError "danger"

/-- Lines 158-185: the continuation of an add-to-cart click.  The selectors of lines 161,
162 and 166 are parsed in that order; one that throws hands over to `.catch`. -/
def resolveAddButton (B : Browser) (p : Page) (c : AddClick) : Outcome → Page
  | .json data =>
    if data.success then
      match B.attrSelector .controls c.productId with
      | none => catchAddButton p c selectorError
      | some sc =>
        match B.attrSelector .addButton c.productId with
        | none => catchAddButton p c selectorError
        | some sa =>
          match revealControls B p.size p.dom (querySelector p.size p.dom sc)
              c.productId data.quantity with
          | .error d1 => catchAddButton { p with dom := d1 } c selectorError
          | .ok d1 =>
            let d2 := match querySelector p.size p.dom sa with
              | some ab => setEl d1 ab ((d1 ab).withDisplay (some "none"))
              | none => d1
            showNotification { p with dom := d2 } data.message "success"
    else
      showNotification { p with dom := restoreAdd c p.dom } data.message "warning"
  | .failure error => catchAddButton p c error

/-- A whole add-to-cart interaction: click, then the request resolves with `o`. -/
def addButtonHandler (B : Browser) (p : Page) (self : Nat) (o : Outcome) : Page :=
  resolveAddButton B (clickAddButton p self).1 (clickAddButton p self).2 o

/-- A click on a quantity-change control or on an add-button. -/
inductive Click where
  | cartAction (self : Nat)
  | addButton (self : Nat)
deriving DecidableEq

/-- The synchronous part of a click: what happens before any request resolves. -/
def clickOnly (p : Page) : Click → Page
  | .cartAction self => (clickCartAction p self).1
  | .addButton self => (clickAddButton p self).1

/-- The quantity-change handler is bound to `a[data-cart-action]`. -/
def cartActionBound (p : Page) (i : Nat) : Bool :=
  decide (i < p.size) && isAnchor (p.dom i) && (p.dom i).dataCartAction.isSome

/-- The add-to-cart handler is bound to `a[data-add-button]` without `data-cart-action`. -/
def addButtonBound (p : Page) (i : Nat) : Bool :=
  decide (i < p.size) && isAnchor (p.dom i) && (p.dom i).dataAddButton.isSome
    && !(p.dom i).dataCartAction.isSome

/-! ## Derived notions used to state the properties -/

/-- The anchors of the group of a click (none when the control is in no group). -/
def groupAnchors (size : Nat) (d : Dom) (group : Option Nat) : List Nat :=
  match group with
  | none => []
  | some g => querySelectorAllIn size d g isAnchor

/-- The group found by `this.closest('[data-cart-controls]')`. -/
def clickGroup (p : Page) (self : Nat) : Option Nat := closest p.dom self hasCartControls

/-- The anchors of the clicked control's group. -/
def clickAnchors (p : Page) (self : Nat) : List Nat :=
  groupAnchors p.size p.dom (clickGroup p self)

/-- The product's control group, as the quantity-change handler of `self` looks it up. -/
def productControls (p : Page) (self : Nat) : Option Nat :=
  querySelector p.size p.dom (isControlsOf (attrText (p.dom self).dataProductId))

/-- The product's add-button, as the quantity-change handler of `self` looks it up. -/
def productAddButton (p : Page) (self : Nat) : Option Nat :=
  querySelector p.size p.dom (isAddButtonOf (attrText (p.dom self).dataProductId))

/-- The product the add-to-cart handler of `self` works for. -/
def addProductId (p : Page) (self : Nat) : String := attrText (p.dom self).dataAddButton

/-- The control group the add-to-cart handler of `self` looks up. -/
def addControls (p : Page) (self : Nat) : Option Nat :=
  querySelector p.size p.dom (isControlsOf (addProductId p self))

/-- The add-button the add-to-cart handler of `self` looks up. -/
def addTarget (p : Page) (self : Nat) : Option Nat :=
  querySelector p.size p.dom (isAddButtonOf (addProductId p self))

/-- The quantity display the add-to-cart handler of `self` writes: the first one inside the
control group it looks up. -/
def addDisplay (p : Page) (self : Nat) : Option Nat :=
  match addControls p self with
  | some cc => querySelectorIn p.size p.dom cc (isQuantityOf (addProductId p self))
  | none => none

/-- What one round of the restore loop does to the element it visits. -/
def restoreEl (c : CartClick) (btn : Nat) (e : Element) : Element :=
  if btn ≠ c.self then
    match c.buttonOriginals.lookup btn with
    | some h => (e.withPointerEvents "auto").withInnerHTML h
    | none => e.withPointerEvents "auto"
  else e.withPointerEvents "auto"

/-- What lines 64-72 do to the add-button. -/
def resetEl (e : Element) : Element :=
  let e3 := ((e.withDisplay none).withPointerEvents "auto").withCursor "pointer"
  (if !(includes e3.innerHTML addToCartLabel) then e3.withInnerHTML addToCartLabel
    else e3).withoutDisabled

/-- What lines 56-60 do to element `j` when the control group is `cc`. -/
def hideEl (size : Nat) (d : Dom) (cc j : Nat) : Element :=
  if j ∈ querySelectorAllIn size d cc isAnchor then
    (if j = cc then (d j).withDisplay (some "none") else d j).withPointerEvents "auto"
  else if j = cc then (d j).withDisplay (some "none") else d j

/-- The document just before the restore sequence of a successful quantity change, when the
three selectors are the attribute tests for the product id. -/
def successDom (B : Browser) (p : Page) (c : CartClick) (q : Int) : Dom :=
  updateVisibility p.size
    (updateQuantities p.size p.dom (isQuantityOf c.productId) (quantityText B q))
    (isControlsOf c.productId) (isAddButtonOf c.productId) q

/-- The document lines 160-171 lead to when the three selectors are the attribute tests for
the product id `pid`; `text` is the text of the reported quantity. -/
def addSuccessDom (size : Nat) (d : Dom) (pid : String) (text : String) : Dom :=
  let cartControls := querySelector size d (isControlsOf pid)
  let addButton := querySelector size d (isAddButtonOf pid)
  let d1 := match cartControls with
    | some cc =>
      let e1 := setEl d cc ((d cc).withDisplay none)
      match querySelectorIn size e1 cc (isQuantityOf pid) with
      | some qe => setEl e1 qe ((e1 qe).withInnerHTML text)
      | none => e1
    | none => d
  match addButton with
  | some ab => setEl d1 ab ((d1 ab).withDisplay (some "none"))
  | none => d1

/-- An element the script may write into: an anchor, a quantity display or an add-button. -/
def writable (e : Element) : Bool :=
  isAnchor e || e.dataProductQuantity.isSome || e.dataAddButton.isSome

/-- Element `i` is not nested inside an element the script may write into. -/
def unnested (p : Page) (i : Nat) : Bool :=
  (p.dom i).ancestors.all (fun w => !writable (p.dom w))

/-- A browser for the sample pages: a selector built from a plain product id is the
attribute test, any other one is rejected, and numbers print in decimal. -/
def sampleBrowser : Browser :=
  { attrSelector := fun m pid => if plainId pid then some (m.matcher pid) else none,
    attrSelector_plain := fun m pid h => by simp [h],
    numberText := fun q => toString q,
    numberText_safe := fun _ _ => rfl }

/-- The markers of an element: everything the script only reads. -/
def Element.markers (e : Element) : Element :=
  { e with disabled := false, innerHTML := "", style := ⟨none, none, none⟩ }

/-- Two documents with the same elements up to content, style and `disabled`. -/
def SameMarkers (d d' : Dom) : Prop := ∀ i, (d' i).markers = (d i).markers

/-- A selector that only looks at markers. -/
def MarkerSel (sel : Element → Bool) : Prop := ∀ e, sel e.markers = sel e

/-! ## Sample pages -/

/-- An element without markers, content or inline style. -/
def blank (tag : String) (ancestors : List Nat) : Element :=
  { tag := tag, ancestors := ancestors, dataCartAction := none, dataProductId := none,
    href := none, dataAddButton := none, dataCartControls := none,
    dataProductQuantity := none, disabled := false, innerHTML := "",
    style := ⟨none, none, none⟩ }

/-- A page made of the given elements, with nothing emitted yet. -/
def pageOf (els : List Element) (pathname : String) : Page :=
  { size := els.length, dom := fun i => els.getD i (blank "" []), pathname := pathname,
    notifications := [], requests := [], reloadTimers := [], consoleErrors := [] }

/-- A product card for product 5, one item in the cart:
`<div data-cart-controls="5"><a decrement>-</a><span data-product-quantity="5">1</span>`
`<a increment>+</a></div><a data-add-button="5" style="display:none">Add to Cart</a>`. -/
def cardPage : Page :=
  pageOf
    [ { (blank "div" []) with dataCartControls := some "5" },
      { (blank "a" [0]) with
        dataCartAction := some "decrement", dataProductId := some "5",
        href := some "/cart/decrement/5/", innerHTML := "-" },
      { (blank "span" [0]) with dataProductQuantity := some "5", innerHTML := "1" },
      { (blank "a" [0]) with
        dataCartAction := some "increment", dataProductId := some "5",
        href := some "/cart/increment/5/", innerHTML := "+" },
      { (blank "a" []) with
        dataAddButton := some "5", href := some "/cart/add/5/",
        innerHTML := "Add to Cart", style := ⟨some "none", none, none⟩ } ]
    "/products/"

/-- The product card of `cardPage` with nothing in the cart: the control group is hidden,
the display reads `0`, the add-button is visible. -/
def emptyCardPage : Page :=
  pageOf
    [ { (blank "div" []) with
        dataCartControls := some "5", style := ⟨some "none", none, none⟩ },
      { (blank "a" [0]) with
        dataCartAction := some "decrement", dataProductId := some "5",
        href := some "/cart/decrement/5/", innerHTML := "-" },
      { (blank "span" [0]) with dataProductQuantity := some "5", innerHTML := "0" },
      { (blank "a" [0]) with
        dataCartAction := some "increment", dataProductId := some "5",
        href := some "/cart/increment/5/", innerHTML := "+" },
      { (blank "a" []) with
        dataAddButton := some "5", href := some "/cart/add/5/",
        innerHTML := "Add to Cart" } ]
    "/products/"

/-- The product card of `cardPage` with two items in the cart, where the quantity is shown
as a link to the cart inside the control group:
`<a data-product-quantity="5" href="/cart/">2</a>`. -/
def linkPage : Page :=
  pageOf
    [ { (blank "div" []) with dataCartControls := some "5" },
      { (blank "a" [0]) with
        dataCartAction := some "decrement", dataProductId := some "5",
        href := some "/cart/decrement/5/", innerHTML := "-" },
      { (blank "a" [0]) with
        dataProductQuantity := some "5", href := some "/cart/", innerHTML := "2" },
      { (blank "a" [0]) with
        dataCartAction := some "increment", dataProductId := some "5",
        href := some "/cart/increment/5/", innerHTML := "+" },
      { (blank "a" []) with
        dataAddButton := some "5", href := some "/cart/add/5/",
        innerHTML := "Add to Cart", style := ⟨some "none", none, none⟩ } ]
    "/products/"

/-- The product card of `cardPage` with an icon-only add-button placed inside the control
group: `<a data-add-button="5"><i class="bi bi-cart-plus"></i></a>`. -/
def stackedPage : Page :=
  pageOf
    [ { (blank "div" []) with dataCartControls := some "5" },
      { (blank "a" [0]) with
        dataCartAction := some "decrement", dataProductId := some "5",
        href := some "/cart/decrement/5/", innerHTML := "-" },
      { (blank "span" [0]) with dataProductQuantity := some "5", innerHTML := "1" },
      { (blank "a" [0]) with
        dataCartAction := some "increment", dataProductId := some "5",
        href := some "/cart/increment/5/", innerHTML := "+" },
      { (blank "a" [0]) with
        dataAddButton := some "5", href := some "/cart/add/5/",
        innerHTML := "<i class=\"bi bi-cart-plus\"></i>",
        style := ⟨some "none", none, none⟩ } ]
    "/products/"

/-- The product card of `cardPage` for a product whose id is `5"`: the id ends in a double
quote, so the selectors built from it do not parse. -/
def quotePage : Page :=
  pageOf
    [ { (blank "div" []) with dataCartControls := some "5\"" },
      { (blank "a" [0]) with
        dataCartAction := some "decrement", dataProductId := some "5\"",
        href := some "/cart/decrement/5%22/", innerHTML := "-" },
      { (blank "span" [0]) with dataProductQuantity := some "5\"", innerHTML := "1" },
      { (blank "a" [0]) with
        dataCartAction := some "increment", dataProductId := some "5\"",
        href := some "/cart/increment/5%22/", innerHTML := "+" },
      { (blank "a" []) with
        dataAddButton := some "5\"", href := some "/cart/add/5%22/",
        innerHTML := "Add to Cart", style := ⟨some "none", none, none⟩ } ]
    "/products/"

/-- Product 5 is in the cart and is listed twice, each card with its own control group
(a `-` button and a display reading `1`). -/
def twinCartPage : Page :=
  pageOf
    [ { (blank "div" []) with dataCartControls := some "5" },
      { (blank "a" [0]) with
        dataCartAction := some "decrement", dataProductId := some "5",
        href := some "/cart/decrement/5/", innerHTML := "-" },
      { (blank "span" [0]) with dataProductQuantity := some "5", innerHTML := "1" },
      { (blank "div" []) with dataCartControls := some "5" },
      { (blank "a" [3]) with
        dataCartAction := some "decrement", dataProductId := some "5",
        href := some "/cart/decrement/5/", innerHTML := "-" },
      { (blank "span" [3]) with dataProductQuantity := some "5", innerHTML := "1" } ]
    "/products/"

/-- Product 5 is not in the cart and is listed twice, each card with a hidden control group
(a `-` button and a display reading `0`) and a visible add-button. -/
def twinPage : Page :=
  pageOf
    [ { (blank "div" []) with
        dataCartControls := some "5", style := ⟨some "none", none, none⟩ },
      { (blank "a" [0]) with
        dataCartAction := some "decrement", dataProductId := some "5",
        href := some "/cart/decrement/5/", innerHTML := "-" },
      { (blank "span" [0]) with dataProductQuantity := some "5", innerHTML := "0" },
      { (blank "a" []) with
        dataAddButton := some "5", href := some "/cart/add/5/", innerHTML := "Add to Cart" },
      { (blank "div" []) with
        dataCartControls := some "5", style := ⟨some "none", none, none⟩ },
      { (blank "a" [4]) with
        dataCartAction := some "decrement", dataProductId := some "5",
        href := some "/cart/decrement/5/", innerHTML := "-" },
      { (blank "span" [4]) with dataProductQuantity := some "5", innerHTML := "0" },
      { (blank "a" []) with
        dataAddButton := some "5", href := some "/cart/add/5/", innerHTML := "Add to Cart" } ]
    "/products/"

/-! ## Basic facts about element updates -/

theorem setEl_same (d : Dom) (i : Nat) (e : Element) : setEl d i e i = e := by
  simp [setEl]

theorem setEl_other (d : Dom) (i j : Nat) (e : Element) (h : j ≠ i) : setEl d i e j = d j := by
  simp [setEl, h]

theorem SameMarkers.refl (d : Dom) : SameMarkers d d := fun _ => rfl

theorem SameMarkers.trans {a b c : Dom} (h1 : SameMarkers a b) (h2 : SameMarkers b c) :
    SameMarkers a c := fun i => (h2 i).trans (h1 i)

theorem SameMarkers.setEl {d d' : Dom} (h : SameMarkers d d') (i : Nat) (e : Element)
    (he : e.markers = (d' i).markers) : SameMarkers d (setEl d' i e) := by
  intro j
  by_cases hj : j = i
  · subst hj; rw [setEl_same, he]; exact h j
  · rw [setEl_other _ _ _ _ hj]; exact h j

theorem markers_withPointerEvents (e : Element) (v : String) :
    (e.withPointerEvents v).markers = e.markers := rfl

theorem markers_withCursor (e : Element) (v : String) :
    (e.withCursor v).markers = e.markers := rfl

theorem markers_withDisplay (e : Element) (v : Option String) :
    (e.withDisplay v).markers = e.markers := rfl

theorem markers_withInnerHTML (e : Element) (v : String) :
    (e.withInnerHTML v).markers = e.markers := rfl

theorem markers_withoutDisabled (e : Element) :
    e.withoutDisabled.markers = e.markers := rfl

theorem SameMarkers.tag {d d' : Dom} (h : SameMarkers d d') (i : Nat) :
    (d' i).tag = (d i).tag   := by
  have h1 := congrArg Element.tag (h i)
  exact h1

theorem SameMarkers.ancestors {d d' : Dom} (h : SameMarkers d d') (i : Nat) :
    (d' i).ancestors = (d i).ancestors   := by
  have h1 := congrArg Element.ancestors (h i)
  exact h1

theorem SameMarkers.quantity {d d' : Dom} (h : SameMarkers d d') (i : Nat) :
    (d' i).dataProductQuantity = (d i).dataProductQuantity := by
  have h1 := congrArg Element.dataProductQuantity (h i)
  exact h1

theorem SameMarkers.controls {d d' : Dom} (h : SameMarkers d d') (i : Nat) :
    (d' i).dataCartControls = (d i).dataCartControls := by
  have h1 := congrArg Element.dataCartControls (h i)
  exact h1

theorem SameMarkers.addButton {d d' : Dom} (h : SameMarkers d d') (i : Nat) :
    (d' i).dataAddButton = (d i).dataAddButton := by
  have h1 := congrArg Element.dataAddButton (h i)
  exact h1

theorem markerSel_isAnchor : MarkerSel isAnchor := fun _ => rfl
theorem markerSel_isQuantityOf (pid : String) : MarkerSel (isQuantityOf pid) := fun _ => rfl
theorem markerSel_isControlsOf (pid : String) : MarkerSel (isControlsOf pid) := fun _ => rfl
theorem markerSel_isAddButtonOf (pid : String) : MarkerSel (isAddButtonOf pid) := fun _ => rfl
theorem markerSel_hasCartControls : MarkerSel hasCartControls := fun _ => rfl

theorem MarkerSel.eq {sel : Element → Bool} (hs : MarkerSel sel) {d d' : Dom}
    (h : SameMarkers d d') (i : Nat) : sel (d' i) = sel (d i) := by
  rw [← hs (d' i), ← hs (d i), h i]

theorem querySelectorAll_congr {sel : Element → Bool} (hs : MarkerSel sel) {d d' : Dom}
    (h : SameMarkers d d') (size : Nat) :
    querySelectorAll size d' sel = querySelectorAll size d sel := by
  unfold querySelectorAll
  congr 1
  funext i
  exact hs.eq h i

theorem querySelector_congr {sel : Element → Bool} (hs : MarkerSel sel) {d d' : Dom}
    (h : SameMarkers d d') (size : Nat) :
    querySelector size d' sel = querySelector size d sel := by
  unfold querySelector
  rw [querySelectorAll_congr hs h]

theorem querySelectorAllIn_congr {sel : Element → Bool} (hs : MarkerSel sel) {d d' : Dom}
    (h : SameMarkers d d') (size root : Nat) :
    querySelectorAllIn size d' root sel = querySelectorAllIn size d root sel := by
  unfold querySelectorAllIn
  congr 1
  funext i
  rw [hs.eq h i, h.ancestors i]

theorem querySelectorIn_congr {sel : Element → Bool} (hs : MarkerSel sel) {d d' : Dom}
    (h : SameMarkers d d') (size root : Nat) :
    querySelectorIn size d' root sel = querySelectorIn size d root sel := by
  unfold querySelectorIn
  rw [querySelectorAllIn_congr hs h]

theorem closest_congr {sel : Element → Bool} (hs : MarkerSel sel) {d d' : Dom}
    (h : SameMarkers d d') (i : Nat) : closest d' i sel = closest d i sel := by
  unfold closest
  rw [h.ancestors i]
  congr 1
  funext j
  exact hs.eq h j

theorem querySelectorAll_nodup (size : Nat) (d : Dom) (sel : Element → Bool) :
    (querySelectorAll size d sel).Nodup :=
  (List.nodup_range size).filter _

theorem querySelectorAllIn_nodup (size : Nat) (d : Dom) (root : Nat) (sel : Element → Bool) :
    (querySelectorAllIn size d root sel).Nodup :=
  (List.nodup_range size).filter _

theorem mem_querySelectorAll {size : Nat} {d : Dom} {sel : Element → Bool} {i : Nat} :
    i ∈ querySelectorAll size d sel ↔ i < size ∧ sel (d i) = true := by
  simp [querySelectorAll]

theorem mem_querySelectorAllIn {size : Nat} {d : Dom} {root : Nat} {sel : Element → Bool}
    {i : Nat} :
    i ∈ querySelectorAllIn size d root sel ↔
      i < size ∧ root ∈ (d i).ancestors ∧ sel (d i) = true := by
  simp [querySelectorAllIn]

/-- A loop that rewrites each listed element in place, one after the other, leaves element
`j` rewritten once if it is listed and untouched otherwise. -/
theorem foldl_setEl (g : Nat → Element → Element) (l : List Nat) (hl : l.Nodup) (d : Dom)
    (j : Nat) :
    (l.foldl (fun acc i => setEl acc i (g i (acc i))) d) j
      = if j ∈ l then g j (d j) else d j := by
  induction l generalizing d with
  | nil => simp
  | cons a l ih =>
    rw [List.nodup_cons] at hl
    rw [List.foldl_cons, ih hl.2]
    by_cases hja : j = a
    · subst hja
      simp [hl.1, setEl_same]
    · simp [hja, setEl_other _ _ _ _ hja]

theorem setEl_setEl (d : Dom) (i : Nat) (a b : Element) :
    setEl (setEl d i a) i b = setEl d i b := by
  funext j
  by_cases hj : j = i <;> simp [setEl, hj]

/-! ## The snapshot loop -/

theorem foldl_snapshotStep (l : List Nat) (hl : l.Nodup) (d : Dom)
    (m : List (Nat × String)) :
    (l.foldl snapshotStep (d, m)).1
        = (fun j => if j ∈ l then (d j).withPointerEvents "none" else d j)
      ∧ (l.foldl snapshotStep (d, m)).2 = m ++ l.map (fun b => (b, (d b).innerHTML)) := by
  induction l generalizing d m with
  | nil => simp
  | cons a l ih =>
    rw [List.nodup_cons] at hl
    rw [List.foldl_cons]
    obtain ⟨h1, h2⟩ := ih hl.2 (snapshotStep (d, m) a).1 (snapshotStep (d, m) a).2
    refine ⟨?_, ?_⟩
    · rw [h1]
      funext j
      by_cases hja : j = a
      · subst hja
        simp [hl.1, snapshotStep, setEl_same]
      · simp [hja, snapshotStep, setEl_other _ _ _ _ hja]
    · rw [h2]
      simp only [snapshotStep, List.map_cons, List.append_assoc, List.singleton_append]
      congr 2
      apply List.map_congr_left
      intro b hb
      have hba : b ≠ a := fun h => hl.1 (h ▸ hb)
      rw [setEl_other _ _ _ _ hba]

theorem lookup_map_self (f : Nat → String) (l : List Nat) (b : Nat) :
    (l.map (fun x => (x, f x))).lookup b = if b ∈ l then some (f b) else none := by
  induction l with
  | nil => simp
  | cons a l ih =>
    simp only [List.map_cons, List.lookup_cons, List.mem_cons]
    by_cases hba : b = a
    · subst hba; simp
    · have : (b == a) = false := by simpa using hba
      rw [this, ih]
      simp [hba]

theorem groupAnchors_nodup (size : Nat) (d : Dom) (group : Option Nat) :
    (groupAnchors size d group).Nodup := by
  cases group with
  | none => exact List.nodup_nil
  | some g => exact querySelectorAllIn_nodup _ _ _ _

theorem groupAnchors_congr {d d' : Dom} (h : SameMarkers d d') (size : Nat)
    (group : Option Nat) : groupAnchors size d' group = groupAnchors size d group := by
  cases group with
  | none => rfl
  | some g => exact querySelectorAllIn_congr markerSel_isAnchor h size g

theorem snapshotGroup_fst (size : Nat) (d : Dom) (group : Option Nat) (j : Nat) :
    (snapshotGroup size d group).1 j
      = if j ∈ groupAnchors size d group then (d j).withPointerEvents "none" else d j := by
  cases group with
  | none => simp [snapshotGroup, groupAnchors]
  | some g =>
    simp only [snapshotGroup, groupAnchors]
    rw [(foldl_snapshotStep _ (querySelectorAllIn_nodup _ _ _ _) d []).1]

theorem snapshotGroup_lookup (size : Nat) (d : Dom) (group : Option Nat) (b : Nat) :
    (snapshotGroup size d group).2.lookup b
      = if b ∈ groupAnchors size d group then some (d b).innerHTML else none := by
  cases group with
  | none => simp [snapshotGroup, groupAnchors]
  | some g =>
    simp only [snapshotGroup, groupAnchors]
    rw [(foldl_snapshotStep _ (querySelectorAllIn_nodup _ _ _ _) d []).2, List.nil_append]
    exact lookup_map_self (fun b => (d b).innerHTML) _ b

/-! ## The click of a quantity-change control -/

theorem clickCartAction_dom (p : Page) (self j : Nat) :
    (clickCartAction p self).1.dom j
      = if j = self then
          (((if self ∈ clickAnchors p self then (p.dom self).withPointerEvents "none"
              else p.dom self).withInnerHTML loadingHTML).withPointerEvents "none")
        else if j ∈ clickAnchors p self then (p.dom j).withPointerEvents "none"
        else p.dom j := by
  simp only [clickCartAction, setEl_setEl]
  by_cases hj : j = self
  · subst hj
    simp only [setEl_same, if_true]
    rw [snapshotGroup_fst]
    rfl
  · rw [setEl_other _ _ _ _ hj, snapshotGroup_fst]
    simp only [hj, if_false]
    rfl

theorem clickCartAction_ctx (p : Page) (self : Nat) :
    (clickCartAction p self).2.self = self
      ∧ (clickCartAction p self).2.productId = attrText (p.dom self).dataProductId
      ∧ (clickCartAction p self).2.group = clickGroup p self
      ∧ (clickCartAction p self).2.originalHTML = (p.dom self).innerHTML
      ∧ ∀ b, (clickCartAction p self).2.buttonOriginals.lookup b
          = if b ∈ clickAnchors p self then some (p.dom b).innerHTML else none := by
  refine ⟨rfl, rfl, rfl, ?_, ?_⟩
  · simp only [clickCartAction]
    rw [snapshotGroup_fst]
    split <;> rfl
  · intro b
    simp only [clickCartAction]
    exact snapshotGroup_lookup _ _ _ _

theorem clickCartAction_sameMarkers (p : Page) (self : Nat) :
    SameMarkers p.dom (clickCartAction p self).1.dom := by
  intro j
  rw [clickCartAction_dom]
  split
  · next h => subst h; split <;> rfl
  · split <;> rfl

theorem clickCartAction_size (p : Page) (self : Nat) :
    (clickCartAction p self).1.size = p.size := rfl

/-! ## The restore sequence -/

theorem restoreStep_eq (c : CartClick) (d : Dom) (btn : Nat) :
    restoreStep c d btn = setEl d btn (restoreEl c btn (d btn)) := by
  unfold restoreStep restoreEl
  by_cases h : btn ≠ c.self
  · rw [if_pos h, if_pos h]
    cases c.buttonOriginals.lookup btn with
    | none => rfl
    | some v => simp only [setEl_setEl, setEl_same]
  · rw [if_neg h, if_neg h]

theorem restore_dom (c : CartClick) (size : Nat) (d : Dom) (j : Nat) :
    restore c size d j
      = if j ∈ groupAnchors size d c.group then
          restoreEl c j (if j = c.self then
            ((d j).withInnerHTML c.originalHTML).withPointerEvents "auto" else d j)
        else if j = c.self then
          ((d j).withInnerHTML c.originalHTML).withPointerEvents "auto"
        else d j := by
  have hm : SameMarkers d (setEl d c.self
      (((d c.self).withInnerHTML c.originalHTML).withPointerEvents "auto")) :=
    (SameMarkers.refl d).setEl _ _ rfl
  have hstep : restoreStep c = fun acc i => setEl acc i (restoreEl c i (acc i)) := by
    funext acc i; exact restoreStep_eq c acc i
  simp only [restore, setEl_setEl, setEl_same]
  cases hg : c.group with
  | none =>
    simp only [groupAnchors, List.not_mem_nil, if_false]
    by_cases hj : j = c.self
    · subst hj; simp [setEl_same]
    · simp [hj, setEl_other _ _ _ _ hj]
  | some g =>
    simp only [groupAnchors]
    rw [hstep, foldl_setEl _ _ (querySelectorAllIn_nodup _ _ _ _),
      querySelectorAllIn_congr markerSel_isAnchor hm]
    by_cases hj : j = c.self
    · subst hj; simp [setEl_same]
    · simp [hj, setEl_other _ _ _ _ hj]

theorem restoreEl_markers (c : CartClick) (b : Nat) (e : Element) :
    (restoreEl c b e).markers = e.markers := by
  unfold restoreEl
  split
  · split <;> rfl
  · rfl

theorem restore_sameMarkers (c : CartClick) (size : Nat) (d : Dom) :
    SameMarkers d (restore c size d) := by
  intro j
  rw [restore_dom]
  split
  · rw [restoreEl_markers]; split <;> rfl
  · split <;> rfl

theorem restoreEl_pointerEvents (c : CartClick) (b : Nat) (e : Element) :
    (restoreEl c b e).style.pointerEvents = some "auto" := by
  unfold restoreEl
  split
  · split <;> rfl
  · rfl

theorem restoreEl_display (c : CartClick) (b : Nat) (e : Element) :
    (restoreEl c b e).style.display = e.style.display := by
  unfold restoreEl
  split
  · split <;> rfl
  · rfl

theorem restoreEl_disabled (c : CartClick) (b : Nat) (e : Element) :
    (restoreEl c b e).disabled = e.disabled := by
  unfold restoreEl
  split
  · split <;> rfl
  · rfl

theorem restore_pointerEvents (c : CartClick) (size : Nat) (d : Dom) (j : Nat)
    (h : j = c.self ∨ j ∈ groupAnchors size d c.group) :
    (restore c size d j).style.pointerEvents = some "auto" := by
  rw [restore_dom]
  split
  · exact restoreEl_pointerEvents _ _ _
  · next hn =>
    rcases h with h | h
    · simp [h, Element.withPointerEvents]
    · exact absurd h hn

theorem restore_display (c : CartClick) (size : Nat) (d : Dom) (j : Nat) :
    (restore c size d j).style.display = (d j).style.display := by
  rw [restore_dom]
  split
  · rw [restoreEl_display]; split <;> rfl
  · split <;> rfl

theorem restore_disabled (c : CartClick) (size : Nat) (d : Dom) (j : Nat) :
    (restore c size d j).disabled = (d j).disabled := by
  rw [restore_dom]
  split
  · rw [restoreEl_disabled]; split <;> rfl
  · split <;> rfl

theorem restore_innerHTML_self (c : CartClick) (size : Nat) (d : Dom) :
    (restore c size d c.self).innerHTML = c.originalHTML := by
  rw [restore_dom]
  split
  · simp [restoreEl, Element.withInnerHTML, Element.withPointerEvents]
  · simp [Element.withInnerHTML, Element.withPointerEvents]

theorem restore_innerHTML_anchor (c : CartClick) (size : Nat) (d : Dom) (j : Nat) (h : String)
    (hj : j ≠ c.self) (hmem : j ∈ groupAnchors size d c.group)
    (hl : c.buttonOriginals.lookup j = some h) :
    (restore c size d j).innerHTML = h := by
  rw [restore_dom]
  simp [hmem, hj, restoreEl, hl, Element.withInnerHTML]

theorem restore_innerHTML_other (c : CartClick) (size : Nat) (d : Dom) (j : Nat)
    (hj : j ≠ c.self) (hmem : j ∉ groupAnchors size d c.group) :
    (restore c size d j).innerHTML = (d j).innerHTML := by
  rw [restore_dom]
  simp [hmem, hj]

/-! ## Quantity displays and control visibility -/

theorem updateQuantities_dom (size : Nat) (d : Dom) (sq : Element → Bool) (text : String)
    (j : Nat) :
    updateQuantities size d sq text j
      = if j ∈ querySelectorAll size d sq then (d j).withInnerHTML text else d j := by
  unfold updateQuantities
  exact foldl_setEl (fun _ e => e.withInnerHTML text) _ (querySelectorAll_nodup _ _ _) d j

theorem updateQuantities_sameMarkers (size : Nat) (d : Dom) (sq : Element → Bool)
    (text : String) : SameMarkers d (updateQuantities size d sq text) := by
  intro j
  rw [updateQuantities_dom]
  split <;> rfl

theorem hideControls_dom (size : Nat) (d : Dom) (cc j : Nat) :
    hideControls size d (some cc) j = hideEl size d cc j := by
  have hm : SameMarkers d (setEl d cc ((d cc).withDisplay (some "none"))) :=
    (SameMarkers.refl d).setEl _ _ rfl
  simp only [hideControls, hideEl]
  rw [foldl_setEl (fun _ e => e.withPointerEvents "auto") _ (querySelectorAllIn_nodup _ _ _ _),
    querySelectorAllIn_congr markerSel_isAnchor hm]
  by_cases hj : j = cc
  · subst hj; simp [setEl_same]
  · simp [hj, setEl_other _ _ _ _ hj]

theorem hideEl_markers (size : Nat) (d : Dom) (cc j : Nat) :
    (hideEl size d cc j).markers = (d j).markers := by
  unfold hideEl
  split
  · split <;> rfl
  · split <;> rfl

theorem hideEl_innerHTML (size : Nat) (d : Dom) (cc j : Nat) :
    (hideEl size d cc j).innerHTML = (d j).innerHTML := by
  unfold hideEl
  split
  · split <;> rfl
  · split <;> rfl

theorem hideEl_display (size : Nat) (d : Dom) (cc j : Nat) :
    (hideEl size d cc j).style.display
      = if j = cc then some "none" else (d j).style.display := by
  unfold hideEl
  split
  · split <;> rfl
  · split <;> rfl

theorem hideControls_sameMarkers (size : Nat) (d : Dom) (cc : Option Nat) :
    SameMarkers d (hideControls size d cc) := by
  cases cc with
  | none => exact SameMarkers.refl d
  | some c =>
    intro j
    rw [hideControls_dom, hideEl_markers]

theorem hideControls_innerHTML (size : Nat) (d : Dom) (cc : Option Nat) (j : Nat) :
    (hideControls size d cc j).innerHTML = (d j).innerHTML := by
  cases cc with
  | none => rfl
  | some c => rw [hideControls_dom, hideEl_innerHTML]

theorem hideControls_display (size : Nat) (d : Dom) (cc : Option Nat) (j : Nat) :
    (hideControls size d cc j).style.display
      = if cc = some j then some "none" else (d j).style.display := by
  cases cc with
  | none => simp [hideControls]
  | some c =>
    rw [hideControls_dom, hideEl_display]
    by_cases h : j = c
    · subst h; simp
    · have : ¬ c = j := fun e => h e.symm
      simp [h, this]

theorem resetAddButton_dom (d : Dom) (ab j : Nat) :
    resetAddButton d (some ab) j = if j = ab then resetEl (d ab) else d j := by
  simp only [resetAddButton, resetEl, setEl_setEl, setEl_same]
  by_cases hj : j = ab
  · subst hj
    simp only [if_true]
    split <;> simp [setEl_same, setEl_setEl]
  · simp only [hj, if_false]
    rw [setEl_other _ _ _ _ hj]
    split <;> simp [setEl_other _ _ _ _ hj]

theorem resetEl_eq (e : Element) :
    resetEl e = { e with
      disabled := false
      innerHTML := if includes e.innerHTML addToCartLabel then e.innerHTML else addToCartLabel
      style := ⟨none, some "auto", some "pointer"⟩ } := by
  unfold resetEl
  cases h : includes e.innerHTML addToCartLabel <;>
    simp [h, Element.withoutDisabled, Element.withCursor, Element.withPointerEvents,
      Element.withDisplay, Element.withInnerHTML]

theorem resetEl_markers (e : Element) : (resetEl e).markers = e.markers := by
  rw [resetEl_eq]; rfl

theorem resetEl_display (e : Element) : (resetEl e).style.display = none := by
  rw [resetEl_eq]

theorem resetEl_pointerEvents (e : Element) :
    (resetEl e).style.pointerEvents = some "auto" := by
  rw [resetEl_eq]

theorem resetEl_disabled (e : Element) : (resetEl e).disabled = false := by
  rw [resetEl_eq]

theorem includes_label_self : includes addToCartLabel addToCartLabel = true := by decide

theorem resetEl_includes (e : Element) :
    includes (resetEl e).innerHTML addToCartLabel = true := by
  rw [resetEl_eq]
  cases h : includes e.innerHTML addToCartLabel
  · simp only [Bool.false_eq_true, if_false]; exact includes_label_self
  · simp only [if_true]; exact h

theorem resetEl_innerHTML_of_not_includes (e : Element)
    (h : includes e.innerHTML addToCartLabel = false) :
    (resetEl e).innerHTML = addToCartLabel := by
  rw [resetEl_eq]
  simp [h]

theorem resetAddButton_sameMarkers (d : Dom) (ab : Option Nat) :
    SameMarkers d (resetAddButton d ab) := by
  cases ab with
  | none => exact SameMarkers.refl d
  | some a =>
    intro j
    rw [resetAddButton_dom]
    split
    · next h => subst h; exact resetEl_markers _
    · rfl

theorem updateVisibility_sameMarkers (size : Nat) (d : Dom) (sc sa : Element → Bool) (q : Int) :
    SameMarkers d (updateVisibility size d sc sa q) := by
  unfold updateVisibility
  simp only
  split
  · have h1 : SameMarkers d (match querySelector size d sc with
        | some cc => setEl d cc ((d cc).withDisplay none)
        | none => d) := by
      cases querySelector size d sc with
      | none => exact SameMarkers.refl d
      | some cc => exact (SameMarkers.refl d).setEl _ _ rfl
    cases querySelector size d sa with
    | none => exact h1
    | some ab => exact h1.setEl _ _ rfl
  · exact (hideControls_sameMarkers _ _ _).trans (resetAddButton_sameMarkers _ _)

theorem success_sameMarkers (size : Nat) (d : Dom) (sq sc sa : Element → Bool)
    (text : String) (q : Int) :
    SameMarkers d (updateVisibility size (updateQuantities size d sq text) sc sa q) :=
  (updateQuantities_sameMarkers _ _ _ _).trans (updateVisibility_sameMarkers _ _ _ _ _)

theorem restoreEl_idem (c : CartClick) (b : Nat) (e : Element) :
    restoreEl c b (restoreEl c b e) = restoreEl c b e := by
  unfold restoreEl
  split
  · cases c.buttonOriginals.lookup b <;> rfl
  · rfl

theorem restoreEl_restored (c : CartClick) (e : Element) :
    ((restoreEl c c.self e).withInnerHTML c.originalHTML).withPointerEvents "auto"
      = restoreEl c c.self ((e.withInnerHTML c.originalHTML).withPointerEvents "auto") := by
  simp [restoreEl, Element.withInnerHTML, Element.withPointerEvents]

/-- The restore sequence is idempotent. -/
theorem restore_idem (c : CartClick) (size : Nat) (d : Dom) :
    restore c size (restore c size d) = restore c size d := by
  funext j
  rw [restore_dom c size (restore c size d) j,
    groupAnchors_congr (restore_sameMarkers c size d), restore_dom c size d j]
  by_cases hm : j ∈ groupAnchors size d c.group
  · simp only [hm, if_true]
    by_cases hj : j = c.self
    · subst hj
      simp only [if_true]
      rw [restoreEl_restored, restoreEl_idem]
      simp [restoreEl, Element.withInnerHTML, Element.withPointerEvents]
    · simp only [hj, if_false]
      exact restoreEl_idem _ _ _
  · simp only [hm, if_false]
    by_cases hj : j = c.self
    · simp [hj, Element.withInnerHTML, Element.withPointerEvents]
    · simp [hj]

/-- With a plain product id the success branch runs to its end. -/
theorem resolveCartAction_success (B : Browser) (p : Page) (c : CartClick) (q : Int)
    (msg : String) (hplain : plainId c.productId = true) :
    (resolveCartAction B p c (.json ⟨true, q, msg⟩)).dom = restore c p.size (successDom B p c q)
      ∧ (resolveCartAction B p c (.json ⟨true, q, msg⟩)).size = p.size
      ∧ (resolveCartAction B p c (.json ⟨true, q, msg⟩)).notifications
          = p.notifications ++ [{ message := msg, type := "success" }]
      ∧ (resolveCartAction B p c (.json ⟨true, q, msg⟩)).requests = p.requests := by
  simp only [resolveCartAction, if_true, B.attrSelector_plain _ _ hplain, Marker.matcher,
    showNotification, scheduleReload, successDom]
  split <;> exact ⟨rfl, rfl, rfl, rfl⟩

theorem catchCartAction_dom (p : Page) (c : CartClick) (error : String) :
    (catchCartAction p c error).dom = restore c p.size p.dom
      ∧ (catchCartAction p c error).size = p.size
      ∧ (catchCartAction p c error).requests = p.requests :=
  ⟨rfl, rfl, rfl⟩

/-- Whatever the browser and the outcome, the continuation ends with the restore sequence,
run on a document with the markers of the one it started from, and issues no request. -/
theorem resolveCartAction_dom (B : Browser) (p : Page) (c : CartClick) (o : Outcome) :
    (∃ d, SameMarkers p.dom d ∧ (resolveCartAction B p c o).dom = restore c p.size d)
      ∧ (resolveCartAction B p c o).size = p.size
      ∧ (resolveCartAction B p c o).requests = p.requests := by
  cases o with
  | failure e => exact ⟨⟨p.dom, SameMarkers.refl _, rfl⟩, rfl, rfl⟩
  | json data =>
    obtain ⟨succ, q, msg⟩ := data
    cases succ with
    | false => exact ⟨⟨p.dom, SameMarkers.refl _, rfl⟩, rfl, rfl⟩
    | true =>
      simp only [resolveCartAction, if_true]
      cases B.attrSelector .quantity c.productId with
      | none => exact ⟨⟨p.dom, SameMarkers.refl _, rfl⟩, rfl, rfl⟩
      | some sq =>
        simp only
        cases B.attrSelector .controls c.productId with
        | none => exact ⟨⟨_, updateQuantities_sameMarkers _ _ _ _, rfl⟩, rfl, rfl⟩
        | some sc =>
          simp only
          cases B.attrSelector .addButton c.productId with
          | none => exact ⟨⟨_, updateQuantities_sameMarkers _ _ _ _, rfl⟩, rfl, rfl⟩
          | some sa =>
            simp only [showNotification, scheduleReload]
            split <;> exact ⟨⟨_, success_sameMarkers _ _ _ _ _ _ _, rfl⟩, rfl, rfl⟩

/-- The document a quantity-change interaction ends with is a restored one. -/
theorem cartActionHandler_dom (B : Browser) (p : Page) (self : Nat) (o : Outcome) :
    ∃ d, SameMarkers p.dom d ∧ (cartActionHandler B p self o).size = p.size
      ∧ (cartActionHandler B p self o).dom = restore (clickCartAction p self).2 p.size d := by
  obtain ⟨⟨d, hd, hdom⟩, hsize, -⟩ :=
    resolveCartAction_dom B (clickCartAction p self).1 (clickCartAction p self).2 o
  exact ⟨d, (clickCartAction_sameMarkers p self).trans hd, hsize, hdom⟩

/-- After a click, restoring gives every element the content it had before the click. -/
theorem restore_click_innerHTML (p : Page) (self j : Nat) :
    (restore (clickCartAction p self).2 p.size (clickCartAction p self).1.dom j).innerHTML
      = (p.dom j).innerHTML := by
  obtain ⟨hself, -, hgroup, horig, hlook⟩ := clickCartAction_ctx p self
  have hA : groupAnchors p.size (clickCartAction p self).1.dom (clickCartAction p self).2.group
      = clickAnchors p self := by
    rw [groupAnchors_congr (clickCartAction_sameMarkers p self), hgroup]; rfl
  by_cases hj : j = self
  · subst hj
    have := restore_innerHTML_self (clickCartAction p j).2 p.size (clickCartAction p j).1.dom
    rw [hself] at this
    rw [this, horig]
  · have hj2 : j ≠ (clickCartAction p self).2.self := by rw [hself]; exact hj
    by_cases hm : j ∈ clickAnchors p self
    · rw [restore_innerHTML_anchor _ _ _ _ (p.dom j).innerHTML hj2 (hA ▸ hm)]
      rw [hlook j, if_pos hm]
    · rw [restore_innerHTML_other _ _ _ _ hj2 (hA ▸ hm), clickCartAction_dom]
      simp [hj, hm]

theorem clickCartAction_display (p : Page) (self j : Nat) :
    ((clickCartAction p self).1.dom j).style.display = (p.dom j).style.display := by
  rw [clickCartAction_dom]
  split
  · next h => subst h; split <;> rfl
  · split <;> rfl

theorem clickCartAction_disabled (p : Page) (self j : Nat) :
    ((clickCartAction p self).1.dom j).disabled = (p.dom j).disabled := by
  rw [clickCartAction_dom]
  split
  · next h => subst h; split <;> rfl
  · split <;> rfl

/-- Once a quantity-change request has resolved, the clicked control and the anchors of its
group are pointer-enabled. -/
theorem resolved_group_pointer_enabled_aux (B : Browser) (p : Page) (self b : Nat) (o : Outcome)
    (hb : b = self ∨ b ∈ clickAnchors p self) :
    ((cartActionHandler B p self o).dom b).style.pointerEvents = some "auto" := by
  obtain ⟨d, hd, -, hdom⟩ := cartActionHandler_dom B p self o
  obtain ⟨hself, -, hgroup, -, -⟩ := clickCartAction_ctx p self
  rw [hdom]
  apply restore_pointerEvents
  rw [hself, groupAnchors_congr hd, hgroup]
  exact hb

theorem updateVisibility_pos (size : Nat) (d : Dom) (sc sa : Element → Bool) (q : Int) (hq : q > 0)
    (j : Nat) :
    updateVisibility size d sc sa q j
      = if querySelector size d sa = some j then
          (if querySelector size d sc = some j then (d j).withDisplay none
            else d j).withDisplay (some "none")
        else if querySelector size d sc = some j then (d j).withDisplay none
        else d j := by
  unfold updateVisibility
  simp only [hq, if_true]
  have h1 : ∀ k, (match querySelector size d sc with
      | some cc => setEl d cc ((d cc).withDisplay none)
      | none => d) k
      = if querySelector size d sc = some k then (d k).withDisplay none
        else d k := by
    intro k
    cases querySelector size d sc with
    | none => simp
    | some cc =>
      by_cases hk : k = cc
      · subst hk; simp [setEl_same]
      · have : ¬ cc = k := fun e => hk e.symm
        simp [setEl_other _ _ _ _ hk, this]
  cases hab : querySelector size d sa with
  | none => simp only [h1]; simp
  | some ab =>
    by_cases hj : j = ab
    · subst hj; simp only [setEl_same, h1]; simp
    · have : ¬ ab = j := fun e => hj e.symm
      simp only [setEl_other _ _ _ _ hj, h1]
      simp [this]

theorem updateVisibility_nonpos (size : Nat) (d : Dom) (sc sa : Element → Bool) (q : Int) (hq : q ≤ 0)
    (j : Nat) :
    updateVisibility size d sc sa q j
      = if querySelector size d sa = some j then
          resetEl (hideControls size d (querySelector size d sc) j)
        else hideControls size d (querySelector size d sc) j := by
  unfold updateVisibility
  have hq2 : ¬ q > 0 := not_lt.mpr hq
  simp only [hq2, if_false]
  cases hab : querySelector size d sa with
  | none => simp [resetAddButton]
  | some ab =>
    rw [resetAddButton_dom]
    by_cases hj : j = ab
    · subst hj; simp
    · have : ¬ ab = j := fun e => hj e.symm
      simp [hj, this]

theorem updateVisibility_innerHTML (size : Nat) (d : Dom) (sc sa : Element → Bool) (q : Int) (j : Nat)
    (h : q ≤ 0 → querySelector size d sa ≠ some j) :
    (updateVisibility size d sc sa q j).innerHTML = (d j).innerHTML := by
  by_cases hq : q > 0
  · rw [updateVisibility_pos _ _ _ _ _ hq]
    split
    · split <;> rfl
    · split <;> rfl
  · have hq2 : q ≤ 0 := not_lt.mp hq
    rw [updateVisibility_nonpos _ _ _ _ _ hq2, if_neg (h hq2), hideControls_innerHTML]

theorem quantityText_eq (B : Browser) (q : Int) (hsafe : isSafeInteger q = true) :
    quantityText B q = toString (max q 0) := by
  unfold quantityText
  by_cases hq : q > 0
  · rw [if_pos hq, max_eq_left (le_of_lt hq), B.numberText_safe q hsafe]
  · rw [if_neg hq, max_eq_right (not_lt.mp hq)]
    rfl

theorem quantityText_nonpos (B : Browser) (q : Int) (hq : q ≤ 0) : quantityText B q = "0" := by
  unfold quantityText
  rw [if_neg (not_lt.mpr hq)]

theorem querySelector_mem {size : Nat} {d : Dom} {sel : Element → Bool} {i : Nat}
    (h : querySelector size d sel = some i) : i < size ∧ sel (d i) = true :=
  mem_querySelectorAll.mp (List.mem_of_mem_head? h)

/-- The content, just before the restore sequence, of a quantity display that is not the
add-button being reset. -/
theorem successDom_quantity (B : Browser) (p : Page) (c : CartClick) (q : Int) (i : Nat)
    (hi : i < p.size) (hq : isQuantityOf c.productId (p.dom i) = true)
    (hadd : q ≤ 0 → querySelector p.size p.dom (isAddButtonOf c.productId) ≠ some i) :
    (successDom B p c q i).innerHTML = quantityText B q := by
  unfold successDom
  rw [updateVisibility_innerHTML, updateQuantities_dom,
    if_pos (mem_querySelectorAll.mpr ⟨hi, hq⟩)]
  · rfl
  · rw [querySelector_congr (markerSel_isAddButtonOf _) (updateQuantities_sameMarkers _ _ _ _)]
    exact hadd

theorem successDom_sameMarkers (B : Browser) (p : Page) (c : CartClick) (q : Int) :
    SameMarkers p.dom (successDom B p c q) :=
  success_sameMarkers p.size p.dom _ _ _ _ q

/-- The restore loop of a successful quantity change visits the anchors of the clicked
control's group. -/
theorem click_successDom_anchors (B : Browser) (p : Page) (self : Nat) (q : Int) :
    groupAnchors (clickCartAction p self).1.size
        (successDom B (clickCartAction p self).1 (clickCartAction p self).2 q)
        (clickCartAction p self).2.group
      = clickAnchors p self := by
  rw [groupAnchors_congr ((clickCartAction_sameMarkers p self).trans
    (successDom_sameMarkers _ _ _ _))]
  rfl

theorem restore_pointerEvents_eq (c : CartClick) (size : Nat) (d : Dom) (j : Nat) :
    (restore c size d j).style.pointerEvents
      = if j = c.self ∨ j ∈ groupAnchors size d c.group then some "auto"
        else (d j).style.pointerEvents := by
  by_cases h : j = c.self ∨ j ∈ groupAnchors size d c.group
  · rw [if_pos h]; exact restore_pointerEvents c size d j h
  · rw [if_neg h, restore_dom]
    rw [not_or] at h
    simp [h.1, h.2]

/-- The document a successful quantity change for a plain product id ends with, element by
element, in terms of the page before the click. -/
theorem success_final (B : Browser) (p : Page) (self : Nat) (q : Int) (msg : String) (j : Nat)
    (hplain : plainId (attrText (p.dom self).dataProductId) = true) :
    (cartActionHandler B p self (.json ⟨true, q, msg⟩)).dom j
      = restore (clickCartAction p self).2 p.size
          (successDom B (clickCartAction p self).1 (clickCartAction p self).2 q) j := by
  unfold cartActionHandler
  rw [(resolveCartAction_success B _ _ q msg hplain).1]
  rfl

theorem click_successDom_pos (B : Browser) (p : Page) (self : Nat) (q : Int) (hq : q > 0)
    (j : Nat) :
    (successDom B (clickCartAction p self).1 (clickCartAction p self).2 q j).style.display
      = if productAddButton p self = some j then some "none"
        else if productControls p self = some j then none
        else (p.dom j).style.display := by
  have hm := (clickCartAction_sameMarkers p self).trans
    (updateQuantities_sameMarkers p.size (clickCartAction p self).1.dom
      (isQuantityOf (attrText (p.dom self).dataProductId)) (quantityText B q))
  have hdisp : (updateQuantities p.size (clickCartAction p self).1.dom
      (isQuantityOf (attrText (p.dom self).dataProductId)) (quantityText B q) j).style.display
      = (p.dom j).style.display := by
    rw [updateQuantities_dom]
    split
    · exact clickCartAction_display p self j
    · exact clickCartAction_display p self j
  show (updateVisibility p.size (updateQuantities p.size (clickCartAction p self).1.dom
      (isQuantityOf (attrText (p.dom self).dataProductId)) (quantityText B q))
      (isControlsOf (attrText (p.dom self).dataProductId))
      (isAddButtonOf (attrText (p.dom self).dataProductId)) q j).style.display = _
  rw [updateVisibility_pos _ _ _ _ _ hq, querySelector_congr (markerSel_isAddButtonOf _) hm,
    querySelector_congr (markerSel_isControlsOf _) hm]
  unfold productAddButton productControls
  split
  · split <;> rfl
  · split
    · rfl
    · exact hdisp

theorem click_successDom_nonpos (B : Browser) (p : Page) (self : Nat) (q : Int) (hq : q ≤ 0)
    (j : Nat) :
    successDom B (clickCartAction p self).1 (clickCartAction p self).2 q j
      = if productAddButton p self = some j then
          resetEl (hideControls p.size (updateQuantities p.size (clickCartAction p self).1.dom
            (isQuantityOf (attrText (p.dom self).dataProductId)) (quantityText B q))
            (productControls p self) j)
        else hideControls p.size (updateQuantities p.size (clickCartAction p self).1.dom
            (isQuantityOf (attrText (p.dom self).dataProductId)) (quantityText B q))
            (productControls p self) j := by
  have hm := (clickCartAction_sameMarkers p self).trans
    (updateQuantities_sameMarkers p.size (clickCartAction p self).1.dom
      (isQuantityOf (attrText (p.dom self).dataProductId)) (quantityText B q))
  show updateVisibility p.size (updateQuantities p.size (clickCartAction p self).1.dom
      (isQuantityOf (attrText (p.dom self).dataProductId)) (quantityText B q))
      (isControlsOf (attrText (p.dom self).dataProductId))
      (isAddButtonOf (attrText (p.dom self).dataProductId)) q j = _
  rw [updateVisibility_nonpos _ _ _ _ _ hq, querySelector_congr (markerSel_isAddButtonOf _) hm,
    querySelector_congr (markerSel_isControlsOf _) hm]
  rfl

/-! ## The add-to-cart handler -/

theorem clickAddButton_dom (p : Page) (self j : Nat) :
    (clickAddButton p self).1.dom j
      = if j = self then ((p.dom self).withInnerHTML loadingHTML).withPointerEvents "none"
        else p.dom j := by
  simp only [clickAddButton, setEl_setEl, setEl_same]
  by_cases hj : j = self
  · subst hj; simp [setEl_same]
  · simp [hj, setEl_other _ _ _ _ hj]

theorem clickAddButton_sameMarkers (p : Page) (self : Nat) :
    SameMarkers p.dom (clickAddButton p self).1.dom := by
  intro j
  rw [clickAddButton_dom]
  split
  · next h => subst h; rfl
  · rfl

/-- The document after lines 164-170, before the add-button is hidden. -/
theorem addSuccessDom_eq (size : Nat) (d : Dom) (pid : String) (text : String) (j : Nat) :
    addSuccessDom size d pid text j
      = (fun e : Element =>
          if querySelector size d (isAddButtonOf pid) = some j
          then e.withDisplay (some "none") else e)
        ((fun e : Element =>
          if (∃ c, querySelector size d (isControlsOf pid) = some c
              ∧ querySelectorIn size d c (isQuantityOf pid) = some j)
          then e.withInnerHTML text else e)
         (if querySelector size d (isControlsOf pid) = some j then (d j).withDisplay none
          else d j)) := by
  unfold addSuccessDom
  simp only
  have key : ∀ k, (match querySelector size d (isControlsOf pid) with
      | some cc =>
        match querySelectorIn size (setEl d cc ((d cc).withDisplay none)) cc
            (isQuantityOf pid) with
        | some qe => setEl (setEl d cc ((d cc).withDisplay none)) qe
            ((setEl d cc ((d cc).withDisplay none) qe).withInnerHTML text)
        | none => setEl d cc ((d cc).withDisplay none)
      | none => d) k
      = (fun e : Element =>
          if (∃ c, querySelector size d (isControlsOf pid) = some c
              ∧ querySelectorIn size d c (isQuantityOf pid) = some k)
          then e.withInnerHTML text else e)
         (if querySelector size d (isControlsOf pid) = some k then (d k).withDisplay none
          else d k) := by
    intro k
    cases hcc : querySelector size d (isControlsOf pid) with
    | none => simp
    | some cc =>
      have hm : SameMarkers d (setEl d cc ((d cc).withDisplay none)) :=
        (SameMarkers.refl d).setEl _ _ rfl
      simp only [querySelectorIn_congr (markerSel_isQuantityOf pid) hm, Option.some.injEq,
        exists_eq_left']
      have hset : ∀ k, setEl d cc ((d cc).withDisplay none) k
          = if cc = k then (d k).withDisplay none else d k := by
        intro k
        by_cases hk : k = cc
        · subst hk; simp [setEl_same]
        · have : ¬ cc = k := fun e => hk e.symm
          simp [setEl_other _ _ _ _ hk, this]
      cases hqe : querySelectorIn size d cc (isQuantityOf pid) with
      | none => simp [hset]
      | some qe =>
        by_cases hk : k = qe
        · subst hk; simp [setEl_same, hset]
        · have : ¬ qe = k := fun e => hk e.symm
          simp [setEl_other _ _ _ _ hk, hset, this]
  cases hab : querySelector size d (isAddButtonOf pid) with
  | none => simp only [key]; simp
  | some ab =>
    by_cases hj : j = ab
    · subst hj; simp only [setEl_same, key]; simp
    · have : ¬ ab = j := fun e => hj e.symm
      simp only [setEl_other _ _ _ _ hj, key]
      simp [this]

theorem revealControls_plain (B : Browser) (size : Nat) (d : Dom) (o : Option Nat)
    (pid : String) (q : Int) (hplain : plainId pid = true) :
    revealControls B size d o pid q
      = .ok (match o with
          | some cc =>
            match querySelectorIn size (setEl d cc ((d cc).withDisplay none)) cc
                (isQuantityOf pid) with
            | some qe => setEl (setEl d cc ((d cc).withDisplay none)) qe
                ((setEl d cc ((d cc).withDisplay none) qe).withInnerHTML (B.numberText q))
            | none => setEl d cc ((d cc).withDisplay none)
          | none => d) := by
  cases o with
  | none => rfl
  | some cc =>
    simp only [revealControls, B.attrSelector_plain _ _ hplain, Marker.matcher]
    cases querySelectorIn size (setEl d cc ((d cc).withDisplay none)) cc (isQuantityOf pid)
      <;> rfl

/-- With a plain product id the success branch of the add-to-cart handler runs to its end. -/
theorem addButtonHandler_success (B : Browser) (p : Page) (self : Nat) (q : Int)
    (msg : String) (hplain : plainId (addProductId p self) = true) :
    (addButtonHandler B p self (.json ⟨true, q, msg⟩)).dom
        = addSuccessDom p.size (clickAddButton p self).1.dom (addProductId p self)
            (B.numberText q)
      ∧ (addButtonHandler B p self (.json ⟨true, q, msg⟩)).size = p.size
      ∧ (addButtonHandler B p self (.json ⟨true, q, msg⟩)).notifications
          = p.notifications ++ [{ message := msg, type := "success" }] := by
  have h1 : (clickAddButton p self).2.productId = addProductId p self := rfl
  have h2 : plainId (clickAddButton p self).2.productId = true := hplain
  simp only [addButtonHandler, resolveAddButton, if_true, B.attrSelector_plain _ _ h2,
    revealControls_plain B _ _ _ _ _ h2, Marker.matcher]
  exact ⟨rfl, rfl, rfl⟩

/-- The document a successful add-to-cart ends with, element by element, in terms of the
page before the click. -/
theorem addButtonHandler_success_dom (B : Browser) (p : Page) (self : Nat) (q : Int)
    (msg : String) (j : Nat) (hplain : plainId (addProductId p self) = true) :
    (addButtonHandler B p self (.json ⟨true, q, msg⟩)).dom j
      = (fun e : Element =>
          if addTarget p self = some j then e.withDisplay (some "none") else e)
        ((fun e : Element =>
          if addDisplay p self = some j then e.withInnerHTML (B.numberText q) else e)
         (if addControls p self = some j
          then ((clickAddButton p self).1.dom j).withDisplay none
          else (clickAddButton p self).1.dom j)) := by
  have hm := clickAddButton_sameMarkers p self
  rw [(addButtonHandler_success B p self q msg hplain).1, addSuccessDom_eq,
    querySelector_congr (markerSel_isAddButtonOf _) hm,
    querySelector_congr (markerSel_isControlsOf _) hm]
  have hd : (∃ c, querySelector p.size p.dom (isControlsOf (addProductId p self)) = some c
        ∧ querySelectorIn p.size (clickAddButton p self).1.dom c
            (isQuantityOf (addProductId p self)) = some j)
      ↔ addDisplay p self = some j := by
    unfold addDisplay addControls
    cases querySelector p.size p.dom (isControlsOf (addProductId p self)) with
    | none => simp
    | some c => simp [querySelectorIn_congr (markerSel_isQuantityOf _) hm]
  simp only [hd]
  rfl

theorem SameMarkers.productId {d d' : Dom} (h : SameMarkers d d') (i : Nat) :
    (d' i).dataProductId = (d i).dataProductId := by
  have h1 := congrArg Element.dataProductId (h i)
  exact h1

theorem addButtonHandler_sameMarkers (B : Browser) (p : Page) (self : Nat) (q : Int)
    (msg : String) (hplain : plainId (addProductId p self) = true) :
    SameMarkers p.dom (addButtonHandler B p self (.json ⟨true, q, msg⟩)).dom := by
  intro j
  rw [addButtonHandler_success_dom B p self q msg j hplain]
  have h := clickAddButton_sameMarkers p self j
  simp only
  split <;> split <;> split <;> exact h

theorem restore_other (c : CartClick) (size : Nat) (d : Dom) (j : Nat)
    (hj : j ≠ c.self) (hmem : j ∉ groupAnchors size d c.group) :
    restore c size d j = d j := by
  rw [restore_dom]
  simp [hmem, hj]

theorem includes_loading_label : includes loadingHTML addToCartLabel = false := by decide

theorem includes_zero_label : includes "0" addToCartLabel = false := by decide

theorem clickAnchors_congr (p p' : Page) (hsize : p'.size = p.size)
    (hm : SameMarkers p.dom p'.dom) (self : Nat) :
    clickAnchors p' self = clickAnchors p self := by
  unfold clickAnchors clickGroup
  rw [hsize, groupAnchors_congr hm, closest_congr markerSel_hasCartControls hm]

/-- The element a successful quantity change with `quantity <= 0` leaves in place of the
product's add-button, when the restore sequence does not visit it. -/
theorem success_nonpos_addButton (B : Browser) (p : Page) (self a : Nat) (q : Int)
    (msg : String) (hplain : plainId (attrText (p.dom self).dataProductId) = true)
    (hq : q ≤ 0) (ha : productAddButton p self = some a) (hne : a ≠ self)
    (hnot : a ∉ clickAnchors p self) :
    (cartActionHandler B p self (.json ⟨true, q, msg⟩)).dom a
      = resetEl (hideControls p.size (updateQuantities p.size (clickCartAction p self).1.dom
          (isQuantityOf (attrText (p.dom self).dataProductId)) (quantityText B q))
          (productControls p self) a) := by
  obtain ⟨hs, -, -, -, -⟩ := clickCartAction_ctx p self
  have hA := click_successDom_anchors B p self q
  rw [clickCartAction_size] at hA
  rw [success_final B p self q msg a hplain,
    restore_other _ _ _ _ (by rw [hs]; exact hne) (by rw [hA]; exact hnot),
    click_successDom_nonpos B p self q hq, if_pos ha]

/-- The content of an element the click did not touch, after the quantity displays were
updated with a non-positive quantity. -/
theorem updateQuantities_click_innerHTML (B : Browser) (p : Page) (self a : Nat) (q : Int)
    (sq : Element → Bool) (hq : q ≤ 0) (hne : a ≠ self) :
    (updateQuantities p.size (clickCartAction p self).1.dom sq (quantityText B q) a).innerHTML
        = "0"
      ∨ (updateQuantities p.size (clickCartAction p self).1.dom sq
          (quantityText B q) a).innerHTML = (p.dom a).innerHTML := by
  rw [updateQuantities_dom]
  split
  · left
    rw [quantityText_nonpos B q hq]
    rfl
  · right
    rw [clickCartAction_dom]
    simp only [hne, if_false]
    split <;> rfl

theorem querySelectorIn_mem {size : Nat} {d : Dom} {root : Nat} {sel : Element → Bool}
    {i : Nat} (h : querySelectorIn size d root sel = some i) : i < size ∧ sel (d i) = true :=
  have h1 := mem_querySelectorAllIn.mp (List.mem_of_mem_head? h)
  ⟨h1.1, h1.2.2⟩

/-- The synchronous part of a click never re-enables an element. -/
theorem clickOnly_keeps_disabled (p : Page) (k : Click) (b : Nat)
    (h : (p.dom b).style.pointerEvents = some "none") :
    ((clickOnly p k).dom b).style.pointerEvents = some "none" := by
  cases k with
  | cartAction self =>
    show ((clickCartAction p self).1.dom b).style.pointerEvents = some "none"
    rw [clickCartAction_dom]
    split
    · rfl
    · split
      · rfl
      · exact h
  | addButton self =>
    show ((clickAddButton p self).1.dom b).style.pointerEvents = some "none"
    rw [clickAddButton_dom]
    split
    · rfl
    · exact h

theorem clicks_keep_disabled (later : List Click) (p : Page) (b : Nat)
    (h : (p.dom b).style.pointerEvents = some "none") :
    ((later.foldl clickOnly p).dom b).style.pointerEvents = some "none" := by
  induction later generalizing p with
  | nil => exact h
  | cons k ks ih => exact ih (clickOnly p k) (clickOnly_keeps_disabled p k b h)

theorem clickCartAction_pointerEvents (p : Page) (self b : Nat)
    (hb : b = self ∨ b ∈ clickAnchors p self) :
    ((clickCartAction p self).1.dom b).style.pointerEvents = some "none" := by
  rw [clickCartAction_dom]
  by_cases hs : b = self
  · subst hs; simp [Element.withPointerEvents]
  · have hm : b ∈ clickAnchors p self := hb.resolve_left hs
    simp [hs, hm, Element.withPointerEvents]

/-! ## Claims -/

/-- C9 (as amended): a click on a quantity-change control issues exactly one request, a GET
to the control's `href` flagged `X-Requested-With: XMLHttpRequest`, and its continuation
issues none; from the click on, through any further clicks handled before a request resolves
or the page reloads, the clicked control and every anchor of its enclosing control group
have `pointerEvents = 'none'`. -/
theorem click_disables_group_until_resolution (B : Browser) (p : Page) (self b : Nat)
    (later : List Click) (o : Outcome) (hb : b = self ∨ b ∈ clickAnchors p self) :
    ((later.foldl clickOnly (clickCartAction p self).1).dom b).style.pointerEvents
        = some "none"
      ∧ (clickCartAction p self).1.requests
          = p.requests ++ [{ url := attrText (p.dom self).href, method := "GET",
                             headers := [("X-Requested-With", "XMLHttpRequest")] }]
      ∧ (cartActionHandler B p self o).requests = (clickCartAction p self).1.requests :=
  ⟨clicks_keep_disabled later _ b (clickCartAction_pointerEvents p self b hb), rfl,
    (resolveCartAction_dom B _ _ o).2.2⟩

theorem click_disables_group_until_resolution_witness :
    (3 = 1 ∨ 3 ∈ clickAnchors cardPage 1)
      ∧ (([Click.cartAction 3].foldl clickOnly (clickCartAction cardPage 1).1).dom
          3).style.pointerEvents = some "none"
      ∧ (clickCartAction cardPage 1).1.requests
          = [{ url := "/cart/decrement/5/", method := "GET",
               headers := [("X-Requested-With", "XMLHttpRequest")] }] :=
  have h : 3 = 1 ∨ 3 ∈ clickAnchors cardPage 1 := Or.inr (by decide)
  ⟨h,
    (click_disables_group_until_resolution sampleBrowser cardPage 1 3 [Click.cartAction 3]
      (.failure "offline") h).1,
    (click_disables_group_until_resolution sampleBrowser cardPage 1 3 [Click.cartAction 3]
      (.failure "offline") h).2.1⟩

/-- C9 fails as stated: on `twinCartPage` product 5 is listed twice.  The `-` of the first
card is clicked; while its request is pending the `-` of the second card is clicked and
answered with `success`, quantity 0.  Line 48 finds the first card's control group and
lines 58-60 set `pointerEvents = 'auto'` on its anchors, so the control clicked first is
pointer-enabled although its own request has not resolved. -/
theorem pending_group_reenabled_by_other_response :
    cartActionBound twinCartPage 1 = true
      ∧ 1 ∈ clickAnchors twinCartPage 1
      ∧ ((clickCartAction twinCartPage 1).1.dom 1).style.pointerEvents = some "none"
      ∧ cartActionBound (clickCartAction twinCartPage 1).1 4 = true
      ∧ ((cartActionHandler sampleBrowser (clickCartAction twinCartPage 1).1 4
          (.json ⟨true, 0, "Removed"⟩)).dom 1).style.pointerEvents = some "auto"
      ∧ ((cartActionHandler sampleBrowser (clickCartAction twinCartPage 1).1 4
          (.json ⟨true, 0, "Removed"⟩)).dom 1).innerHTML
          = "<i class=\"bi bi-arrow-repeat spin\"></i>" := by
  decide

/-- C4: whatever the outcome of a quantity-change request (success, rejection, transport
failure) and whatever the pointer state before, once the request has resolved the clicked
control and every anchor of its group have `pointerEvents = 'auto'`, and running the recovery
sequence once more leaves the document as it is. -/
theorem resolved_group_pointer_enabled (B : Browser) (p : Page) (self b : Nat) (o : Outcome)
    (hb : b = self ∨ b ∈ clickAnchors p self) :
    ((cartActionHandler B p self o).dom b).style.pointerEvents = some "auto"
      ∧ restore (clickCartAction p self).2 p.size (cartActionHandler B p self o).dom
          = (cartActionHandler B p self o).dom := by
  refine ⟨resolved_group_pointer_enabled_aux B p self b o hb, ?_⟩
  obtain ⟨d, -, -, hdom⟩ := cartActionHandler_dom B p self o
  rw [hdom]
  exact restore_idem _ _ _

theorem resolved_group_pointer_enabled_witness :
    (3 = 1 ∨ 3 ∈ clickAnchors cardPage 1)
      ∧ ((cartActionHandler sampleBrowser cardPage 1 (.failure "offline")).dom
          3).style.pointerEvents = some "auto" :=
  have h : 3 = 1 ∨ 3 ∈ clickAnchors cardPage 1 := Or.inr (by decide)
  ⟨h, (resolved_group_pointer_enabled sampleBrowser cardPage 1 3 (.failure "offline") h).1⟩

/-- C6: when the response to a quantity-change click has `success == false`, every element
(the clicked button, the other anchors of its group, every quantity display) has exactly the
content it had before the click, the clicked button and the anchors of its group have
`pointerEvents = 'auto'`, no element's inline `display` has changed, and exactly one
notification was emitted: severity `warning`, text the server's message. -/
theorem rejection_reverts (B : Browser) (p : Page) (self b j : Nat) (q : Int) (msg : String)
    (hb : b = self ∨ b ∈ clickAnchors p self) :
    ((cartActionHandler B p self (.json ⟨false, q, msg⟩)).dom j).innerHTML
        = (p.dom j).innerHTML
      ∧ ((cartActionHandler B p self (.json ⟨false, q, msg⟩)).dom b).style.pointerEvents
          = some "auto"
      ∧ ((cartActionHandler B p self (.json ⟨false, q, msg⟩)).dom j).style.display
          = (p.dom j).style.display
      ∧ (cartActionHandler B p self (.json ⟨false, q, msg⟩)).notifications
          = p.notifications ++ [{ message := msg, type := "warning" }] := by
  refine ⟨?_, resolved_group_pointer_enabled_aux B p self b _ hb, ?_, rfl⟩
  · exact restore_click_innerHTML p self j
  · show (restore (clickCartAction p self).2 p.size (clickCartAction p self).1.dom j).style.display
      = _
    rw [restore_display, clickCartAction_display]

theorem rejection_reverts_witness :
    (3 = 1 ∨ 3 ∈ clickAnchors cardPage 1)
      ∧ ((cartActionHandler sampleBrowser cardPage 1
          (.json ⟨false, 7, "Out of stock"⟩)).dom 1).innerHTML = "-"
      ∧ (cartActionHandler sampleBrowser cardPage 1
          (.json ⟨false, 7, "Out of stock"⟩)).notifications
          = [{ message := "Out of stock", type := "warning" }] :=
  have h : 3 = 1 ∨ 3 ∈ clickAnchors cardPage 1 := Or.inr (by decide)
  ⟨h, (rejection_reverts sampleBrowser cardPage 1 3 1 7 "Out of stock" h).1,
    (rejection_reverts sampleBrowser cardPage 1 3 1 7 "Out of stock" h).2.2.2⟩

/-- C7: in both handlers a transport failure (rejected fetch, unparsable body) gives the
clicked button its original content back and re-enables it, and emits exactly the
notification `An error occurred. Please try again.` with severity `danger`; two runs that
differ only in the underlying error emit the same notifications, so the error text itself
reaches the console only. -/
theorem transport_failure_generic_notification (B : Browser) (p : Page) (self : Nat)
    (error error' : String) :
    (((cartActionHandler B p self (.failure error)).dom self).innerHTML
        = (p.dom self).innerHTML
      ∧ ((cartActionHandler B p self (.failure error)).dom self).style.pointerEvents
          = some "auto"
      ∧ (cartActionHandler B p self (.failure error)).notifications
          = p.notifications
              ++ [{ message := "An error occurred. Please try again.", type := "danger" }]
      ∧ (cartActionHandler B p self (.failure error')).notifications
          = (cartActionHandler B p self (.failure error)).notifications
      ∧ (cartActionHandler B p self (.failure error)).consoleErrors
          = p.consoleErrors ++ [error])
    ∧ (((addButtonHandler B p self (.failure error)).dom self).innerHTML
        = (p.dom self).innerHTML
      ∧ ((addButtonHandler B p self (.failure error)).dom self).style.pointerEvents
          = some "auto"
      ∧ (addButtonHandler B p self (.failure error)).notifications
          = p.notifications
              ++ [{ message := "An error occurred. Please try again.", type := "danger" }]
      ∧ (addButtonHandler B p self (.failure error')).notifications
          = (addButtonHandler B p self (.failure error)).notifications
      ∧ (addButtonHandler B p self (.failure error)).consoleErrors
          = p.consoleErrors ++ [error]) := by
  refine ⟨⟨?_, ?_, rfl, rfl, rfl⟩, ⟨?_, ?_, rfl, rfl, rfl⟩⟩
  · exact restore_click_innerHTML p self self
  · exact (resolved_group_pointer_enabled_aux B p self self (.failure error) (Or.inl rfl))
  · simp [addButtonHandler, resolveAddButton, catchAddButton, showNotification, restoreAdd,
      clickAddButton, setEl_same, Element.withInnerHTML, Element.withPointerEvents]
  · simp [addButtonHandler, resolveAddButton, catchAddButton, showNotification, restoreAdd,
      clickAddButton, setEl_same, Element.withInnerHTML, Element.withPointerEvents]

/-- C1 (as amended): for a plain product id and a safe integer `q`, after a successful
quantity change reporting `q` a quantity display of the product shows `max(q, 0)`, provided it
is not nested inside an element the script writes into, is neither the clicked control nor
an anchor of the clicked control's group, and, when `q <= 0`, does not carry the product's
add-button marker. -/
theorem quantity_displays_show_clamped (B : Browser) (p : Page) (self i : Nat) (q : Int)
    (msg : String)
    (hplain : plainId (attrText (p.dom self).dataProductId) = true)
    (hsafe : isSafeInteger q = true) (hi : i < p.size)
    (hq : isQuantityOf (attrText (p.dom self).dataProductId) (p.dom i) = true)
    (_hnested : unnested p i = true)
    (hself : i ≠ self) (hgroup : i ∉ clickAnchors p self)
    (hadd : q ≤ 0 → isAddButtonOf (attrText (p.dom self).dataProductId) (p.dom i) = false) :
    ((cartActionHandler B p self (.json ⟨true, q, msg⟩)).dom i).innerHTML
      = toString (max q 0) := by
  obtain ⟨hs, hpid, hg, -, -⟩ := clickCartAction_ctx p self
  have hm := clickCartAction_sameMarkers p self
  rw [success_final B p self q msg i hplain]
  have hnot := click_successDom_anchors B p self q
  rw [clickCartAction_size] at hnot
  rw [restore_innerHTML_other _ _ _ _ (by rw [hs]; exact hself) (by rw [hnot]; exact hgroup),
    ← quantityText_eq B q hsafe]
  refine successDom_quantity B (clickCartAction p self).1 (clickCartAction p self).2 q i hi
    ?_ ?_
  · rw [hpid, (markerSel_isQuantityOf _).eq hm]; exact hq
  · rw [hpid]
    intro h0 hfound
    have h1 := (querySelector_mem hfound).2
    rw [(markerSel_isAddButtonOf _).eq hm] at h1
    rw [hadd h0] at h1
    exact Bool.false_ne_true h1

theorem quantity_displays_show_clamped_witness :
    ((cartActionHandler sampleBrowser cardPage 1 (.json ⟨true, -1, "Removed"⟩)).dom
        2).innerHTML = toString (max (-1 : Int) 0) :=
  quantity_displays_show_clamped sampleBrowser cardPage 1 2 (-1) "Removed" (by decide)
    (by decide) (by decide) (by decide) (by decide) (by decide) (by decide)
    (fun _ => by decide)

/-- C1 fails as stated, in two ways.  On `quotePage` the product id is `5"`: the selector of
line 38 does not parse, `.catch` runs, and after a click on `+` answered with `success`,
quantity 2, the display still reads `1` and the notification is the generic error.  On
`linkPage` the quantity display is an anchor of the control group: a click on `+` answered
with `success`, quantity 3, writes `3` into it and the restore loop then puts the snapshot
`2` back. -/
theorem quantity_display_not_updated :
    (isQuantityOf (attrText (quotePage.dom 3).dataProductId) (quotePage.dom 2) = true
      ∧ ((cartActionHandler sampleBrowser quotePage 3 (.json ⟨true, 2, "Added"⟩)).dom
          2).innerHTML = "1"
      ∧ ((cartActionHandler sampleBrowser quotePage 3 (.json ⟨true, 2, "Added"⟩)).dom
          2).innerHTML ≠ toString (max (2 : Int) 0)
      ∧ (cartActionHandler sampleBrowser quotePage 3 (.json ⟨true, 2, "Added"⟩)).notifications
          = [{ message := "An error occurred. Please try again.", type := "danger" }])
    ∧ (isQuantityOf (attrText (linkPage.dom 3).dataProductId) (linkPage.dom 2) = true
      ∧ ((cartActionHandler sampleBrowser linkPage 3 (.json ⟨true, 3, "Added"⟩)).dom
          2).innerHTML = "2"
      ∧ ((cartActionHandler sampleBrowser linkPage 3 (.json ⟨true, 3, "Added"⟩)).dom
          2).innerHTML ≠ toString (max (3 : Int) 0)) := by
  decide

/-- C3: for a plain product id, after a successful quantity change with `quantity > 0` the
product's add-button, when there is one, has inline `display: none`, and the product's
control group, when there is one, has its inline display cleared; the two are separate
elements (the group does not carry the add-button marker) and neither is nested inside an
element the script writes into. -/
theorem positive_quantity_visibility (B : Browser) (p : Page) (self g a : Nat) (q : Int)
    (msg : String)
    (hplain : plainId (attrText (p.dom self).dataProductId) = true) (hq : q > 0) :
    (productControls p self = some g →
        isAddButtonOf (attrText (p.dom self).dataProductId) (p.dom g) = false →
        unnested p g = true →
        ((cartActionHandler B p self (.json ⟨true, q, msg⟩)).dom g).style.display = none)
      ∧ (productAddButton p self = some a → unnested p a = true →
        ((cartActionHandler B p self (.json ⟨true, q, msg⟩)).dom a).style.display
          = some "none") := by
  refine ⟨?_, ?_⟩
  · intro hg hmark _
    have hne : productAddButton p self ≠ some g := by
      intro hfound
      have h1 := (querySelector_mem hfound).2
      rw [hmark] at h1
      exact Bool.false_ne_true h1
    rw [success_final B p self q msg g hplain, restore_display,
      click_successDom_pos B p self q hq, if_neg hne, if_pos hg]
  · intro ha _
    rw [success_final B p self q msg a hplain, restore_display,
      click_successDom_pos B p self q hq, if_pos ha]

theorem positive_quantity_visibility_witness :
    (3 : Int) > 0
      ∧ productAddButton cardPage 3 = some 4 ∧ productControls cardPage 3 = some 0
      ∧ ((cartActionHandler sampleBrowser cardPage 3 (.json ⟨true, 3, "Added"⟩)).dom
          0).style.display = none
      ∧ ((cartActionHandler sampleBrowser cardPage 3 (.json ⟨true, 3, "Added"⟩)).dom
          4).style.display = some "none" :=
  ⟨by decide, by decide, by decide,
    (positive_quantity_visibility sampleBrowser cardPage 3 0 4 3 "Added" (by decide)
      (by decide)).1 (by decide) (by decide) (by decide),
    (positive_quantity_visibility sampleBrowser cardPage 3 0 4 3 "Added" (by decide)
      (by decide)).2 (by decide) (by decide)⟩

/-- C2 (as amended): for a plain product id, after a successful quantity change with
`quantity <= 0` the product's control group has `display: none` and the product's add-button
has no inline display, `pointerEvents = 'auto'` and no `disabled` attribute; the content of
the add-button contains `Add to Cart` when it is neither the clicked control nor an anchor
of the clicked control's group.  The group and the add-button are separate elements (the
group does not carry the add-button marker) and neither is nested inside an element the
script writes into. -/
theorem nonpositive_quantity_visibility (B : Browser) (p : Page) (self g a : Nat) (q : Int)
    (msg : String)
    (hplain : plainId (attrText (p.dom self).dataProductId) = true) (hq : q ≤ 0) :
    (productControls p self = some g →
        isAddButtonOf (attrText (p.dom self).dataProductId) (p.dom g) = false →
        unnested p g = true →
        ((cartActionHandler B p self (.json ⟨true, q, msg⟩)).dom g).style.display
          = some "none")
      ∧ (productAddButton p self = some a → unnested p a = true →
        ((cartActionHandler B p self (.json ⟨true, q, msg⟩)).dom a).style.display = none
        ∧ ((cartActionHandler B p self (.json ⟨true, q, msg⟩)).dom a).style.pointerEvents
            = some "auto"
        ∧ ((cartActionHandler B p self (.json ⟨true, q, msg⟩)).dom a).disabled = false
        ∧ (a ≠ self → a ∉ clickAnchors p self →
            includes ((cartActionHandler B p self (.json ⟨true, q, msg⟩)).dom a).innerHTML
              "Add to Cart" = true)) := by
  obtain ⟨hs, -, -, -, -⟩ := clickCartAction_ctx p self
  have hA := click_successDom_anchors B p self q
  rw [clickCartAction_size] at hA
  refine ⟨?_, ?_⟩
  · intro hg hmark _
    have hne : productAddButton p self ≠ some g := by
      intro hfound
      have h1 := (querySelector_mem hfound).2
      rw [hmark] at h1
      exact Bool.false_ne_true h1
    rw [success_final B p self q msg g hplain, restore_display,
      click_successDom_nonpos B p self q hq, if_neg hne, hideControls_display, if_pos hg]
  · intro ha _
    refine ⟨?_, ?_, ?_, ?_⟩
    · rw [success_final B p self q msg a hplain, restore_display,
        click_successDom_nonpos B p self q hq, if_pos ha, resetEl_display]
    · rw [success_final B p self q msg a hplain, restore_pointerEvents_eq]
      split
      · rfl
      · rw [click_successDom_nonpos B p self q hq, if_pos ha, resetEl_pointerEvents]
    · rw [success_final B p self q msg a hplain, restore_disabled,
        click_successDom_nonpos B p self q hq, if_pos ha, resetEl_disabled]
    · intro hne hnot
      rw [success_final B p self q msg a hplain,
        restore_innerHTML_other _ _ _ _ (by rw [hs]; exact hne) (by rw [hA]; exact hnot),
        click_successDom_nonpos B p self q hq, if_pos ha]
      exact resetEl_includes _

theorem nonpositive_quantity_visibility_witness :
    (0 : Int) ≤ 0
      ∧ productControls cardPage 1 = some 0 ∧ productAddButton cardPage 1 = some 4
      ∧ ((cartActionHandler sampleBrowser cardPage 1 (.json ⟨true, 0, "Removed"⟩)).dom
          0).style.display = some "none"
      ∧ ((cartActionHandler sampleBrowser cardPage 1 (.json ⟨true, 0, "Removed"⟩)).dom
          4).style.display = none
      ∧ includes ((cartActionHandler sampleBrowser cardPage 1
          (.json ⟨true, 0, "Removed"⟩)).dom 4).innerHTML "Add to Cart" = true :=
  ⟨by decide, by decide, by decide,
    (nonpositive_quantity_visibility sampleBrowser cardPage 1 0 4 0 "Removed" (by decide)
      (by decide)).1 (by decide) (by decide) (by decide),
    ((nonpositive_quantity_visibility sampleBrowser cardPage 1 0 4 0 "Removed" (by decide)
      (by decide)).2 (by decide) (by decide)).1,
    ((nonpositive_quantity_visibility sampleBrowser cardPage 1 0 4 0 "Removed" (by decide)
      (by decide)).2 (by decide) (by decide)).2.2.2 (by decide) (by decide)⟩

/-- C2 fails as stated, in two ways.  On `quotePage` the product id is `5"`: the selector of
line 38 does not parse, `.catch` runs, and after a click on `-` answered with `success`,
quantity 0, the control group is not hidden and the add-button still has `display: none`.
On `stackedPage` the icon-only add-button is an anchor of the clicked control's group: line
69 writes `Add to Cart` into it and the restore loop (line 87) puts the snapshot back, so
its content does not contain `Add to Cart`. -/
theorem add_button_not_reset :
    (productControls quotePage 1 = some 0 ∧ productAddButton quotePage 1 = some 4
      ∧ ((cartActionHandler sampleBrowser quotePage 1 (.json ⟨true, 0, "Removed"⟩)).dom
          0).style.display = none
      ∧ ((cartActionHandler sampleBrowser quotePage 1 (.json ⟨true, 0, "Removed"⟩)).dom
          4).style.display = some "none")
    ∧ (productAddButton stackedPage 1 = some 4 ∧ 4 ∈ clickAnchors stackedPage 1
      ∧ ((cartActionHandler sampleBrowser stackedPage 1 (.json ⟨true, 0, "Removed"⟩)).dom
          4).innerHTML = "<i class=\"bi bi-cart-plus\"></i>"
      ∧ includes ((cartActionHandler sampleBrowser stackedPage 1
          (.json ⟨true, 0, "Removed"⟩)).dom 4).innerHTML "Add to Cart" = false) := by
  decide

/-- C8, evaluated at the failing input: on `twinPage` product 5 is listed twice.  A click on
the second add-button answered with `success`, quantity 1, writes `1` into the display of the
first card only (line 166 takes the first display inside the first control group) and hides
the first add-button; the display of the clicked card still reads `0` and the clicked
add-button has no `display: none`.  The same response to a click on `-` writes `1` into
both displays (line 38 takes every display of the product). -/
theorem add_handler_updates_first_card_only :
    addButtonBound twinPage 7 = true
      ∧ isQuantityOf (addProductId twinPage 7) (twinPage.dom 6) = true
      ∧ ((addButtonHandler sampleBrowser twinPage 7 (.json ⟨true, 1, "Added"⟩)).dom
          2).innerHTML = "1"
      ∧ ((addButtonHandler sampleBrowser twinPage 7 (.json ⟨true, 1, "Added"⟩)).dom
          6).innerHTML = "0"
      ∧ ((addButtonHandler sampleBrowser twinPage 7 (.json ⟨true, 1, "Added"⟩)).dom
          7).style.display = none
      ∧ ((cartActionHandler sampleBrowser twinPage 1 (.json ⟨true, 1, "Added"⟩)).dom
          2).innerHTML = "1"
      ∧ ((cartActionHandler sampleBrowser twinPage 1 (.json ⟨true, 1, "Added"⟩)).dom
          6).innerHTML = "1" := by
  decide

/-- C5, evaluated at the failing input: on `emptyCardPage` the quantity display of product 5
reads `0`; a click on the add-button answered with `success`, quantity `-1`, leaves it
reading `-1` (line 168 stores the reported quantity unclamped), whereas the same response to
a click on `+` leaves it reading `0` (lines 40-44). -/
theorem add_handler_writes_negative_quantity :
    addButtonBound emptyCardPage 4 = true
      ∧ isQuantityOf "5" (emptyCardPage.dom 2) = true
      ∧ (emptyCardPage.dom 2).innerHTML = "0"
      ∧ ((addButtonHandler sampleBrowser emptyCardPage 4 (.json ⟨true, -1, "Added"⟩)).dom
          2).innerHTML = "-1"
      ∧ ((cartActionHandler sampleBrowser emptyCardPage 3 (.json ⟨true, -1, "Added"⟩)).dom
          2).innerHTML = "0" := by
  decide

/-- C10 (as amended): take a plain product id and an add-button of it that is the first
element carrying the product's add-button marker, is not nested inside an element the script
writes into and carries no quantity-display marker of the product.  After a successful
add-to-cart it has `display: none`, shows the loading indicator and has
`pointerEvents = 'none'`.  If a successful quantity change with `quantity <= 0` for the same
product follows, clicked on a control whose group does not contain the add-button, the
add-button ends with no inline display, `pointerEvents = 'auto'`, no `disabled` attribute and
content exactly `Add to Cart`. -/
theorem add_then_decrement_to_zero (B : Browser) (p : Page) (a m : Nat) (q1 q2 : Int)
    (msg1 msg2 : String)
    (hplain : plainId (addProductId p a) = true)
    (ha : addTarget p a = some a) (_hnested : unnested p a = true)
    (hnq : isQuantityOf (addProductId p a) (p.dom a) = false)
    (hpid : attrText (p.dom m).dataProductId = addProductId p a)
    (hne : a ≠ m) (hgroup : a ∉ clickAnchors p m) (hq2 : q2 ≤ 0) :
    (((addButtonHandler B p a (.json ⟨true, q1, msg1⟩)).dom a).style.display = some "none"
      ∧ ((addButtonHandler B p a (.json ⟨true, q1, msg1⟩)).dom a).innerHTML
          = "<i class=\"bi bi-arrow-repeat spin\"></i>"
      ∧ ((addButtonHandler B p a (.json ⟨true, q1, msg1⟩)).dom a).style.pointerEvents
          = some "none")
    ∧ (((cartActionHandler B (addButtonHandler B p a (.json ⟨true, q1, msg1⟩)) m
          (.json ⟨true, q2, msg2⟩)).dom a).style.display = none
      ∧ ((cartActionHandler B (addButtonHandler B p a (.json ⟨true, q1, msg1⟩)) m
          (.json ⟨true, q2, msg2⟩)).dom a).style.pointerEvents = some "auto"
      ∧ ((cartActionHandler B (addButtonHandler B p a (.json ⟨true, q1, msg1⟩)) m
          (.json ⟨true, q2, msg2⟩)).dom a).disabled = false
      ∧ ((cartActionHandler B (addButtonHandler B p a (.json ⟨true, q1, msg1⟩)) m
          (.json ⟨true, q2, msg2⟩)).dom a).innerHTML = "Add to Cart") := by
  have hdisp : addDisplay p a ≠ some a := by
    intro hfound
    unfold addDisplay at hfound
    cases hc : addControls p a with
    | none => rw [hc] at hfound; exact Option.noConfusion hfound
    | some cc =>
      rw [hc] at hfound
      have h1 := (querySelectorIn_mem hfound).2
      rw [hnq] at h1
      exact Bool.false_ne_true h1
  have hel : (addButtonHandler B p a (.json ⟨true, q1, msg1⟩)).dom a
      = (if addControls p a = some a
          then ((clickAddButton p a).1.dom a).withDisplay none
          else (clickAddButton p a).1.dom a).withDisplay (some "none") := by
    rw [addButtonHandler_success_dom B p a q1 msg1 a hplain]
    simp only [ha, if_true, hdisp, if_false]
  have hclick : (clickAddButton p a).1.dom a
      = ((p.dom a).withInnerHTML loadingHTML).withPointerEvents "none" := by
    rw [clickAddButton_dom, if_pos rfl]
  have hload : ((addButtonHandler B p a (.json ⟨true, q1, msg1⟩)).dom a).innerHTML
      = loadingHTML := by
    rw [hel, hclick]; split <;> rfl
  refine ⟨⟨?_, hload, ?_⟩, ?_⟩
  · rw [hel]; rfl
  · rw [hel, hclick]; split <;> rfl
  · have hsm := addButtonHandler_sameMarkers B p a q1 msg1 hplain
    have hsize : (addButtonHandler B p a (.json ⟨true, q1, msg1⟩)).size = p.size :=
      (addButtonHandler_success B p a q1 msg1 hplain).2.1
    have hpid2 : attrText ((addButtonHandler B p a (.json ⟨true, q1, msg1⟩)).dom
        m).dataProductId = addProductId p a := by
      rw [hsm.productId m]; exact hpid
    have hab : productAddButton (addButtonHandler B p a (.json ⟨true, q1, msg1⟩)) m
        = some a := by
      unfold productAddButton
      rw [hpid2, hsize, querySelector_congr (markerSel_isAddButtonOf _) hsm]
      exact ha
    have hnot : a ∉ clickAnchors (addButtonHandler B p a (.json ⟨true, q1, msg1⟩)) m := by
      rw [clickAnchors_congr p _ hsize hsm]; exact hgroup
    rw [success_nonpos_addButton B _ m a q2 msg2 (by rw [hpid2]; exact hplain) hq2 hab hne
      hnot]
    refine ⟨resetEl_display _, resetEl_pointerEvents _, resetEl_disabled _, ?_⟩
    apply resetEl_innerHTML_of_not_includes
    rw [hideControls_innerHTML]
    rcases updateQuantities_click_innerHTML B (addButtonHandler B p a (.json ⟨true, q1, msg1⟩))
      m a q2 (isQuantityOf (attrText ((addButtonHandler B p a
        (.json ⟨true, q1, msg1⟩)).dom m).dataProductId)) hq2 hne with h | h
    · rw [h]; exact includes_zero_label
    · rw [h, hload]; exact includes_loading_label

theorem add_then_decrement_to_zero_witness :
    addTarget emptyCardPage 4 = some 4
      ∧ ((addButtonHandler sampleBrowser emptyCardPage 4 (.json ⟨true, 1, "Added"⟩)).dom
          4).innerHTML = "<i class=\"bi bi-arrow-repeat spin\"></i>"
      ∧ ((cartActionHandler sampleBrowser
          (addButtonHandler sampleBrowser emptyCardPage 4 (.json ⟨true, 1, "Added"⟩)) 1
          (.json ⟨true, 0, "Removed"⟩)).dom 4).innerHTML = "Add to Cart"
      ∧ ((cartActionHandler sampleBrowser
          (addButtonHandler sampleBrowser emptyCardPage 4 (.json ⟨true, 1, "Added"⟩)) 1
          (.json ⟨true, 0, "Removed"⟩)).dom 4).style.pointerEvents = some "auto" :=
  have h := add_then_decrement_to_zero sampleBrowser emptyCardPage 4 1 1 0 "Added" "Removed"
    (by decide) (by decide) (by decide) (by decide) (by decide) (by decide) (by decide)
    (by decide)
  ⟨by decide, h.1.2.1, h.2.2.2.2, h.2.2.1⟩

/-- C10 fails as stated: on `twinPage` product 5 is listed twice.  The second add-button is
clicked and the add succeeds; it keeps no inline display (the first add-button is the one
hidden).  The `-` of the revealed group is then clicked and answered with `success`,
quantity 0: the first add-button is reset, the clicked one still shows the loading indicator
with `pointerEvents = 'none'`. -/
theorem second_add_button_stays_loading :
    addButtonBound twinPage 7 = true
      ∧ ((addButtonHandler sampleBrowser twinPage 7 (.json ⟨true, 1, "Added"⟩)).dom
          7).style.display = none
      ∧ cartActionBound (addButtonHandler sampleBrowser twinPage 7
          (.json ⟨true, 1, "Added"⟩)) 1 = true
      ∧ attrText ((addButtonHandler sampleBrowser twinPage 7
          (.json ⟨true, 1, "Added"⟩)).dom 1).dataProductId = addProductId twinPage 7
      ∧ ((cartActionHandler sampleBrowser
          (addButtonHandler sampleBrowser twinPage 7 (.json ⟨true, 1, "Added"⟩)) 1
          (.json ⟨true, 0, "Removed"⟩)).dom 7).innerHTML
          = "<i class=\"bi bi-arrow-repeat spin\"></i>"
      ∧ includes ((cartActionHandler sampleBrowser
          (addButtonHandler sampleBrowser twinPage 7 (.json ⟨true, 1, "Added"⟩)) 1
          (.json ⟨true, 0, "Removed"⟩)).dom 7).innerHTML "Add to Cart" = false
      ∧ ((cartActionHandler sampleBrowser
          (addButtonHandler sampleBrowser twinPage 7 (.json ⟨true, 1, "Added"⟩)) 1
          (.json ⟨true, 0, "Removed"⟩)).dom 7).style.pointerEvents = some "none" := by
  decide

end InventoryManager
